import Mathlib

/-!
Shallow embedding of the pos-server inventory/billing core.

The definitions below are translated from the JavaScript source:
  * `src/routes/inventory.js` (the inventory route handlers),
  * the Inventory / Product / Bill mongoose schemas,
  * `services/cacheService.js` (redis-backed cache helpers),
  * `services/billService.js` (bill cache helpers and statistics).

Conventions of the embedding:
  * JS numbers that hold stock quantities are modelled as `Int`
    (adjustments may drive them negative); money fields as `Rat`.
  * A possibly-`undefined` JS value is an `Option`; JS truthiness of
    numbers (`0` falsy) and strings (`""` falsy) is modelled explicitly.
  * The mongo store is a record of lists; `findOne` is `List.find?`
    (first match), `save` of an existing document replaces it by id,
    `save` of a new document appends it and bumps a fresh-id counter.
  * Mongoose schema validation relevant to the routes is modelled:
    saving a new Inventory document without a `productId` fails
    (the schema marks `productId` required), which the handlers catch
    and turn into a 500 response.
  * The redis cache is an association list of key / value / ttl;
    serialisation round-trips (`JSON.stringify` then `JSON.parse`)
    are modelled as the identity on the stored value.
-/

/-- JS truthiness of an optional string: `undefined` and `""` are falsy. -/
def truthyStr (s : Option String) : Bool :=
  match s with
  | none => false
  | some v => v ≠ ""

/-- JS truthiness of an optional number: `undefined` and `0` are falsy. -/
def truthyInt (n : Option Int) : Bool :=
  match n with
  | none => false
  | some v => v ≠ 0

/-- JS `a || b` for an optional numeric field against a stored default. -/
def jsOrInt (x : Option Int) (d : Int) : Int :=
  match x with
  | none => d
  | some v => if v = 0 then d else v

/-- JS `a || b` for an optional string field against a stored default. -/
def jsOrStr (x : Option String) (d : String) : String :=
  match x with
  | none => d
  | some v => if v = "" then d else v

/-- JS `a || b` where the default itself is optional (`barcode || product.barcode`). -/
def jsOrStrOpt (x : Option String) (d : Option String) : Option String :=
  match x with
  | none => d
  | some v => if v = "" then d else some v

/-- Status derivation shared (textually duplicated) by every mutating
inventory handler: quantity 0 ↦ Out of Stock, quantity ≤ minStock ↦ Low
Stock, otherwise In Stock. -/
def deriveStatus (quantity minStock : Int) : String :=
  if quantity = 0 then "Out of Stock"
  else if quantity ≤ minStock then "Low Stock"
  else "In Stock"

/-- Product document (`src/models/Product.js`); only the fields the
inventory/billing core reads or writes are kept.  `stock` is an `Option`
because `PUT /api/inventory/:id` assigns the raw (possibly undefined)
request quantity to it. -/
structure Product where
  id : Nat
  name : String
  price : Rat
  category : String
  brand : String
  barcode : Option String
  stock : Option Int
  deriving Repr, DecidableEq

/-- Inventory document (`src/models/Inventory.js`).  `productId` is
required by the schema, so every persisted document carries one. -/
structure Inventory where
  id : Nat
  productId : Nat
  barcode : Option String
  quantity : Int
  minStock : Int
  location : String
  warehouse : String
  notes : Option String
  status : String
  deriving Repr, DecidableEq

/-- The document store visible to the inventory routes. -/
structure Store where
  products : List Product
  inventory : List Inventory
  nextPid : Nat
  nextIid : Nat
  deriving Repr, DecidableEq

def findProduct (s : Store) (pid : Nat) : Option Product :=
  s.products.find? (fun p => p.id = pid)

def findInvByBarcode (s : Store) (bc : String) : Option Inventory :=
  s.inventory.find? (fun r => r.barcode = some bc)

def findInvByProductId (s : Store) (pid : Nat) : Option Inventory :=
  s.inventory.find? (fun r => r.productId = pid)

def findInvById (s : Store) (iid : Nat) : Option Inventory :=
  s.inventory.find? (fun r => r.id = iid)

/-- `save` on an already-persisted document: replace it by id. -/
def saveInv (s : Store) (r : Inventory) : Store :=
  { s with inventory := s.inventory.map (fun x => if x.id = r.id then r else x) }

/-- `save` on an already-persisted product: replace it by id. -/
def saveProduct (s : Store) (p : Product) : Store :=
  { s with products := s.products.map (fun x => if x.id = p.id then p else x) }

/-- `save` on a `new Inventory(...)`: append with a fresh id. -/
def insertInv (s : Store) (r : Inventory) : Store :=
  { s with inventory := s.inventory ++ [r], nextIid := s.nextIid + 1 }

def insertProduct (s : Store) (p : Product) : Store :=
  { s with products := s.products ++ [p], nextPid := s.nextPid + 1 }

/-- Outcome of a route handler: a JSON success payload or an HTTP error
status with the handler's message. -/
inductive RouteResult (α : Type) where
  | ok (a : α)
  | err (status : Nat) (msg : String)
  deriving Repr, DecidableEq

/-- Request body of `POST /api/inventory` (create-or-restock). -/
structure PostInvBody where
  productId : Option Nat
  barcode : Option String
  quantity : Option Int
  minStock : Option Int
  location : Option String
  warehouse : Option String
  deriving Repr, DecidableEq

/-- `POST /api/inventory` — create-or-restock (`router.post('/')` in
`src/routes/inventory.js`).  Looks the record up by barcode when one is
given, else by productId; accumulates the supplied quantity onto an
existing record, otherwise creates a new one (the mongoose schema
rejects the save when no productId is available, surfaced as a 500). -/
def postInventory (s : Store) (b : PostInvBody) : Store × RouteResult Inventory :=
  if ¬ truthyInt b.quantity then
    (s, .err 400 "Quantity is required")
  else
    let q := b.quantity.getD 0
    -- resolve the product when a productId is supplied
    let productLookup : RouteResult (Option Product) :=
      match b.productId with
      | some pid =>
          match findProduct s pid with
          | none => .err 404 "Product not found"
          | some p => .ok (some p)
      | none => .ok none
    match productLookup with
    | .err st m => (s, .err st m)
    | .ok product =>
      -- look up an existing record: by barcode if given, else by productId
      let existing : Option Inventory :=
        if truthyStr b.barcode then
          findInvByBarcode s (b.barcode.getD "")
        else
          match b.productId with
          | some pid => findInvByProductId s pid
          | none => none
      match existing with
      | some r =>
          -- update existing inventory (accumulate quantity, js-or metadata)
          let r1 : Inventory :=
            { r with
              quantity := r.quantity + q
              minStock := jsOrInt b.minStock r.minStock
              location := jsOrStr b.location r.location
              warehouse := jsOrStr b.warehouse r.warehouse }
          let r2 := { r1 with status := deriveStatus r1.quantity r1.minStock }
          let s1 :=
            match product with
            | some p =>
                saveProduct s
                  { p with stock := some r2.quantity
                           barcode := jsOrStrOpt b.barcode p.barcode }
            | none => s
          (saveInv s1 r2, .ok r2)
      | none =>
          -- create new inventory
          if b.productId = none ∧ ¬ truthyStr b.barcode then
            (s, .err 400 "Either productId or barcode is required for new inventory")
          else
            match b.productId with
            | none =>
                -- `new Inventory({productId: undefined, ...}).save()` fails
                -- mongoose validation (productId required); caught → 500
                (s, .err 500 "Failed to add inventory")
            | some pid =>
                let r : Inventory :=
                  { id := s.nextIid
                    productId := pid
                    barcode := b.barcode
                    quantity := q
                    minStock := jsOrInt b.minStock 10
                    location := jsOrStr b.location "Main Store"
                    warehouse := jsOrStr b.warehouse "Default"
                    notes := none
                    status := "In Stock" }
                let r2 := { r with status := deriveStatus r.quantity r.minStock }
                let s1 :=
                  match product with
                  | some p =>
                      saveProduct s
                        { p with stock := some r2.quantity
                                 barcode := jsOrStrOpt b.barcode p.barcode }
                  | none => s
                (insertInv s1 r2, .ok r2)

/-- Request body of `POST /api/inventory/register-barcode`. -/
structure RegisterBody where
  barcode : Option String
  name : Option String
  price : Option Rat
  category : Option String
  brand : Option String
  quantity : Option Int
  location : Option String
  warehouse : Option String
  deriving Repr, DecidableEq

/-- JS truthiness of an optional rational (`price`): `undefined`/`0` falsy. -/
def truthyRat (x : Option Rat) : Bool :=
  match x with
  | none => false
  | some v => v ≠ 0

/-- `POST /api/inventory/register-barcode` — register a product by barcode
and create or restock its inventory (`router.post('/register-barcode')`). -/
def registerBarcode (s : Store) (b : RegisterBody) :
    Store × RouteResult (Product × Inventory) :=
  if ¬ (truthyStr b.barcode ∧ truthyStr b.name ∧ truthyRat b.price ∧
        truthyStr b.category) then
    (s, .err 400 "Barcode, name, price, and category are required")
  else
    let bc := b.barcode.getD ""
    -- find or create the product by barcode
    let found := s.products.find? (fun p => p.barcode = some bc)
    let (s1, product) :=
      match found with
      | some p => (s, p)
      | none =>
          let p : Product :=
            { id := s.nextPid
              name := b.name.getD ""
              price := b.price.getD 0
              category := b.category.getD ""
              brand := jsOrStr b.brand ""
              barcode := some bc
              stock := some (jsOrInt b.quantity 0) }
          (insertProduct s p, p)
    -- find or create the inventory by barcode
    let existing := findInvByBarcode s1 bc
    let r2 : Inventory :=
      match existing with
      | some r =>
          let r1 : Inventory :=
            { r with
              quantity := r.quantity + jsOrInt b.quantity 0
              location := jsOrStr b.location r.location
              warehouse := jsOrStr b.warehouse r.warehouse }
          { r1 with status := deriveStatus r1.quantity r1.minStock }
      | none =>
          let r : Inventory :=
            { id := s1.nextIid
              productId := product.id
              barcode := some bc
              quantity := jsOrInt b.quantity 0
              minStock := 10
              location := jsOrStr b.location "Main Store"
              warehouse := jsOrStr b.warehouse "Default"
              notes := none
              status := "In Stock" }
          { r with status := deriveStatus r.quantity r.minStock }
    let s2 :=
      match existing with
      | some _ => saveInv s1 r2
      | none => insertInv s1 r2
    -- update product stock after saving the inventory
    let product2 := { product with stock := some r2.quantity }
    (saveProduct s2 product2, .ok (product2, r2))

/-- Request body of `PUT /api/inventory/:id` (full update). -/
structure PutInvBody where
  quantity : Option Int
  minStock : Option Int
  location : Option String
  warehouse : Option String
  notes : Option String
  deriving Repr, DecidableEq

/-- `PUT /api/inventory/:id` — full update (`router.put('/:id')`).
`findByIdAndUpdate` drops `undefined` fields, so an absent field is
preserved; `status` is then recomputed and saved; finally the product's
`stock` is assigned the raw request quantity (possibly `undefined`). -/
def putInventory (s : Store) (iid : Nat) (b : PutInvBody) :
    Store × RouteResult Inventory :=
  match findInvById s iid with
  | none => (s, .err 404 "Inventory not found")
  | some r =>
      let r1 : Inventory :=
        { r with
          quantity := b.quantity.getD r.quantity
          minStock := b.minStock.getD r.minStock
          location := b.location.getD r.location
          warehouse := b.warehouse.getD r.warehouse
          notes := match b.notes with | some n => some n | none => r.notes }
      let r2 := { r1 with status := deriveStatus r1.quantity r1.minStock }
      let s1 := saveInv s r2
      let s2 :=
        match findProduct s1 r.productId with
        | some p => saveProduct s1 { p with stock := b.quantity }
        | none => s1
      (s2, .ok r2)

/-- `PUT /api/inventory/:id/adjust-quantity` — signed quantity adjustment
(`router.put('/:id/adjust-quantity')`).  The body's `quantity` is checked
against `undefined` only (`0` is an accepted delta); the result is not
floored at zero. -/
def adjustQuantity (s : Store) (iid : Nat) (deltaQuantity : Option Int) :
    Store × RouteResult Inventory :=
  match deltaQuantity with
  | none => (s, .err 400 "Quantity adjustment is required")
  | some dq =>
      match findInvById s iid with
      | none => (s, .err 404 "Inventory not found")
      | some r =>
          let r1 := { r with quantity := r.quantity + dq }
          let r2 := { r1 with status := deriveStatus r1.quantity r1.minStock }
          let s1 := saveInv s r2
          let s2 :=
            match findProduct s1 r.productId with
            | some p => saveProduct s1 { p with stock := some r2.quantity }
            | none => s1
          (s2, .ok r2)

/-- One entry of the `billItems` array sent to `POST /api/inventory/deduct-bill`. -/
structure BillItemIn where
  barcode : Option String
  id : Option Nat
  quantity : Int
  name : Option String
  deriving Repr, DecidableEq

/-- One entry of the `deductedItems` response array. -/
structure DeductedEntry where
  barcode : Option String
  name : Option String
  quantity : Int
  remainingQuantity : Int
  status : String
  deriving Repr, DecidableEq

/-- One entry of the per-item `errors` response array. -/
structure ItemError where
  product : String
  error : String
  deriving Repr, DecidableEq

/-- The display name used in error entries: `item.name || barcode || id`. -/
def itemDisplay (it : BillItemIn) : String :=
  jsOrStr it.name
    (jsOrStr it.barcode
      (match it.id with | some i => toString i | none => "undefined"))

/-- Response payload of `POST /api/inventory/deduct-bill` (`errors` is
serialised as `undefined` when the list is empty). -/
structure DeductResp where
  deductedItems : List DeductedEntry
  errors : List ItemError
  deriving Repr, DecidableEq

/-- Resolution of one bill item inside the `deduct-bill` loop: the
inventory is looked up by barcode first, else by productId. -/
def resolveDeductItem (s : Store) (it : BillItemIn) : Option Inventory :=
  if truthyStr it.barcode then
    findInvByBarcode s (it.barcode.getD "")
  else
    match it.id with
    | some pid => findInvByProductId s pid
    | none => none

/-- Processing of a single bill item inside the `deduct-bill` loop:
record an error and leave the store unchanged when the inventory is
absent or short of stock, otherwise decrement, recompute status, save,
and mirror the product. -/
def processDeductItem (s : Store) (it : BillItemIn) :
    Store × (DeductedEntry ⊕ ItemError) :=
  match resolveDeductItem s it with
  | none =>
      (s, Sum.inr { product := itemDisplay it, error := "Inventory item not found" })
  | some r =>
      if r.quantity < it.quantity then
        (s, Sum.inr
          { product := itemDisplay it
            error := "Insufficient quantity. Available: " ++ toString r.quantity ++
              ", Required: " ++ toString it.quantity })
      else
        let r1 := { r with quantity := r.quantity - it.quantity }
        let r2 := { r1 with status := deriveStatus r1.quantity r1.minStock }
        let s1 := saveInv s r2
        let s2 :=
          match findProduct s1 r.productId with
          | some p => saveProduct s1 { p with stock := some r2.quantity }
          | none => s1
        (s2, Sum.inl
          { barcode := r2.barcode
            name := it.name
            quantity := it.quantity
            remainingQuantity := r2.quantity
            status := r2.status })

/-- The `for (const item of billItems)` loop of `deduct-bill`. -/
def deductLoop (s : Store) (items : List BillItemIn) :
    Store × List DeductedEntry × List ItemError :=
  match items with
  | [] => (s, [], [])
  | it :: rest =>
      match processDeductItem s it with
      | (s1, Sum.inl d) =>
          let (s2, ds, es) := deductLoop s1 rest
          (s2, d :: ds, es)
      | (s1, Sum.inr e) =>
          let (s2, ds, es) := deductLoop s1 rest
          (s2, ds, e :: es)

/-- `POST /api/inventory/deduct-bill` (`router.post('/deduct-bill')`).
`billItems = none` stands for a missing or non-array body field. -/
def deductBill (s : Store) (billItems : Option (List BillItemIn)) :
    Store × RouteResult DeductResp :=
  match billItems with
  | none => (s, .err 400 "billItems array is required")
  | some items =>
      if items.isEmpty then
        (s, .err 400 "billItems array is required")
      else
        let (s1, ds, es) := deductLoop s items
        (s1, .ok { deductedItems := ds, errors := es })

/-- A JS value held in the redis cache (we model the
`JSON.stringify`/`JSON.parse` round-trip as the identity). -/
inductive JsData where
  | invList (l : List Inventory)
  | raw (s : String)
  deriving Repr, DecidableEq

/-- JS string coercion used by template literals: an array of documents
prints as `[object Object],[object Object],...`. -/
def jsToString (d : JsData) : String :=
  match d with
  | .invList l => String.intercalate "," (l.map (fun _ => "[object Object]"))
  | .raw s => s

/-- The redis keyspace: key ↦ (value, remaining ttl in seconds). -/
def Cache := List (String × JsData × Nat)

instance : DecidableEq Cache := by
  unfold Cache
  infer_instance

def cacheGet (c : Cache) (k : String) : Option JsData :=
  (c.find? (fun e => e.1 = k)).map (fun e => e.2.1)

/-- `redisClient.setEx key ttl value` (old entry for the key removed). -/
def cacheSetEx (c : Cache) (k : String) (ttl : Nat) (v : JsData) : Cache :=
  (k, v, ttl) :: c.filter (fun e => e.1 ≠ k)

def cacheDel (c : Cache) (k : String) : Cache :=
  c.filter (fun e => e.1 ≠ k)

/-- `CACHE_EXPIRY.INVENTORY` in `services/cacheService.js`: 30 minutes. -/
def CACHE_EXPIRY_INVENTORY : Nat := 30 * 60

/-- `cacheService.cacheInventory(inventoryId, inventoryData)`: stores
`JSON.stringify(inventoryData)` under `inventory:${inventoryId}` with the
30-minute ttl.  `JSON.stringify(undefined)` is `undefined`, which
`setEx` rejects; the `catch` then returns `false` with nothing stored. -/
def cacheInventory (c : Cache) (inventoryId : JsData)
    (inventoryData : Option JsData) : Cache × Bool :=
  let key := "inventory:" ++ jsToString inventoryId
  match inventoryData with
  | none => (c, false)
  | some v => (cacheSetEx c key CACHE_EXPIRY_INVENTORY v, true)

/-- `cacheService.getCachedInventory(inventoryId)`: reads
`inventory:${inventoryId}`; an `undefined` argument interpolates as the
literal string `undefined`. -/
def getCachedInventory (c : Cache) (inventoryId : Option JsData) : Option JsData :=
  let key := "inventory:" ++
    (match inventoryId with | none => "undefined" | some v => jsToString v)
  cacheGet c key

/-- `cacheService.invalidateInventoryCache(inventoryId)`: deletes the
per-id key when one is given, then the `inventory:list` key.  (Defined in
`services/cacheService.js`; no inventory route calls it.) -/
def invalidateInventoryCache (c : Cache) (inventoryId : Option String) :
    Cache × Bool :=
  let c1 :=
    match inventoryId with
    | some iid => cacheDel c ("inventory:" ++ iid)
    | none => c
  (cacheDel c1 "inventory:list", true)

/-- The list response of `GET /api/inventory`. -/
structure ListResp where
  count : Nat
  data : List Inventory
  cached : Bool
  deriving Repr, DecidableEq

/-- Query filters of `GET /api/inventory`. -/
structure InvFilters where
  warehouse : Option String
  status : Option String
  search : Option String
  deriving Repr, DecidableEq

/-- Case-insensitive substring test standing in for the
`$regex: search, $options: 'i'` name match. -/
def matchesRegexI (hay pat : String) : Bool :=
  decide (2 ≤ ((hay.toLower).splitOn pat.toLower).length)

/-- The mongo query built by `GET /api/inventory` from the (truthy)
filters; an empty query returns every record. -/
def filterInventory (s : Store) (f : InvFilters) : List Inventory :=
  let searchIds : List Nat :=
    if truthyStr f.search then
      (s.products.filter (fun p =>
        matchesRegexI p.name (f.search.getD "") ∨
        p.barcode = some (f.search.getD ""))).map (fun p => p.id)
    else []
  s.inventory.filter (fun r =>
    (¬ truthyStr f.warehouse ∨ r.warehouse = f.warehouse.getD "") ∧
    (¬ truthyStr f.status ∨ r.status = f.status.getD "") ∧
    (¬ truthyStr f.search ∨ r.productId ∈ searchIds ∨
      r.barcode = some (f.search.getD "")))

/-- A cached payload parsed back into a document list. -/
def jsDataToInvList (d : JsData) : List Inventory :=
  match d with
  | .invList l => l
  | .raw _ => []

/-- `GET /api/inventory` (`router.get('/')`).  With no truthy filter the
handler consults `getCachedInventory()` — called with no argument — and
on a miss queries the store and calls `cacheInventory(inventory)` —
again with the list in the id position and no data argument. -/
def getInventoryList (s : Store) (c : Cache) (f : InvFilters) :
    Cache × ListResp :=
  let noFilters := ¬ (truthyStr f.warehouse ∨ truthyStr f.status ∨ truthyStr f.search)
  if noFilters then
    match getCachedInventory c none with
    | some d =>
        (c, { count := (jsDataToInvList d).length
              data := jsDataToInvList d
              cached := true })
    | none =>
        let inv := filterInventory s f
        let (c1, _) := cacheInventory c (.invList inv) none
        (c1, { count := inv.length, data := inv, cached := false })
  else
    let inv := filterInventory s f
    (c, { count := inv.length, data := inv, cached := false })

/-- A line item of a bill (`items` array of the Bill schema). -/
structure BillItem where
  productId : Nat
  productName : String
  quantity : Int
  unitPrice : Rat
  totalPrice : Rat
  deriving Repr, DecidableEq

/-- Bill document (`src/models/Bill.js`); `billNumber` carries a unique
index. -/
structure Bill where
  userId : Nat
  billNumber : String
  items : List BillItem
  subtotal : Rat
  tax : Rat
  taxPercentage : Rat
  discount : Rat
  total : Rat
  paymentMethod : String
  amountReceived : Option Rat
  change : Rat
  paymentStatus : String
  deriving Repr, DecidableEq

/-- `generateBillNumber()` in the bills router: `'BILL-' + Date.now()`,
with the clock reading passed in explicitly. -/
def generateBillNumber (now : Nat) : String :=
  "BILL-" ++ toString now

/-- Request body of `POST /api/bills` (the fields the handler reads). -/
structure CreateBillBody where
  items : Option (List BillItem)
  subtotal : Rat
  tax : Rat
  taxPercentage : Rat
  discount : Rat
  total : Rat
  paymentMethod : Option String
  amountReceived : Option Rat
  deriving Repr, DecidableEq

/-- `change = amountReceived ? amountReceived - total : 0` — the JS
conditional is on truthiness, so an `amountReceived` of 0 yields 0. -/
def billChange (amountReceived : Option Rat) (total : Rat) : Rat :=
  match amountReceived with
  | some a => if a = 0 then 0 else a - total
  | none => 0

/-- The Bill schema's `paymentMethod` enum (`src/models/Bill.js`):
mongoose rejects a save whose paymentMethod lies outside this list. -/
def paymentMethodEnum : List String := ["Cash", "Card", "UPI", "Check"]

/-- `POST /api/bills` (`router.post('/')` in the bills router).  Validates
a non-empty `items` and a `paymentMethod`, computes
`change = amountReceived ? amountReceived - total : 0`, and saves a bill
with `paymentStatus: 'Completed'` under `'BILL-' + Date.now()`.  The
save enforces the schema: a paymentMethod outside the enum fails
mongoose validation, and the unique index on `billNumber` makes the save
of a duplicate number throw; either way the handler's `catch` turns the
failure into a 500 with nothing persisted — there is no retry. -/
def createBill (bills : List Bill) (now : Nat) (userId : Nat)
    (b : CreateBillBody) : List Bill × RouteResult Bill :=
  match b.items with
  | none => (bills, .err 400 "Bill must have at least one item")
  | some items =>
      if items.isEmpty then
        (bills, .err 400 "Bill must have at least one item")
      else if ¬ truthyStr b.paymentMethod then
        (bills, .err 400 "Payment method is required")
      else
        let billNumber := generateBillNumber now
        let change : Rat := billChange b.amountReceived b.total
        let bill : Bill :=
          { userId := userId
            billNumber := billNumber
            items := items
            subtotal := b.subtotal
            tax := b.tax
            taxPercentage := b.taxPercentage
            discount := b.discount
            total := b.total
            paymentMethod := b.paymentMethod.getD ""
            amountReceived := b.amountReceived
            change := change
            paymentStatus := "Completed" }
        if ¬ bill.paymentMethod ∈ paymentMethodEnum then
          -- mongoose schema validation (enum) fails the save, caught → 500
          (bills, .err 500 "Failed to create bill")
        else if bills.any (fun x => x.billNumber = billNumber) then
          -- duplicate key error from the unique index, caught → 500
          (bills, .err 500 "Failed to create bill")
        else
          (bills ++ [bill], .ok bill)

/-- One bucket of the `paymentMethodBreakdown` object. -/
structure MethodStats where
  count : Nat
  total : Rat
  deriving Repr, DecidableEq

/-- Object-key update used by `calculateBillStats`: bump (or create) the
bucket of one payment method in the insertion-ordered association list. -/
def bumpMethod (acc : List (String × MethodStats)) (method : String)
    (amount : Rat) : List (String × MethodStats) :=
  if acc.any (fun e => e.1 = method) then
    acc.map (fun e =>
      if e.1 = method then
        (e.1, { count := e.2.count + 1, total := e.2.total + amount })
      else e)
  else
    acc ++ [(method, { count := 1, total := amount })]

/-- The statistics record returned by `calculateBillStats`. -/
structure BillStats where
  totalBills : Nat
  totalRevenue : Rat
  totalTax : Rat
  totalDiscount : Rat
  averageBill : Rat
  paymentMethodBreakdown : List (String × MethodStats)
  deriving Repr, DecidableEq

/-- `billService.calculateBillStats(bills)` — pure aggregation over the
supplied bill list. -/
def calculateBillStats (bills : List Bill) : BillStats :=
  let totalBills := bills.length
  let totalRevenue := bills.foldl (fun sum bill => sum + bill.total) 0
  let totalTax := bills.foldl (fun sum bill => sum + bill.tax) 0
  let totalDiscount := bills.foldl (fun sum bill => sum + bill.discount) 0
  let averageBill : Rat :=
    if totalBills > 0 then totalRevenue / (totalBills : Rat) else 0
  let paymentMethodBreakdown :=
    bills.foldl (fun acc b => bumpMethod acc b.paymentMethod b.total) []
  { totalBills := totalBills
    totalRevenue := totalRevenue
    totalTax := totalTax
    totalDiscount := totalDiscount
    averageBill := averageBill
    paymentMethodBreakdown := paymentMethodBreakdown }

/-- Lookup of a payment method's bucket in the breakdown object. -/
def lookupMethod (bd : List (String × MethodStats)) (method : String) :
    Option MethodStats :=
  (bd.find? (fun e => e.1 = method)).map (fun e => e.2)

/-- Evaluation of a JS identifier against the lexical scope of a module:
a name that is neither imported nor declared throws a `ReferenceError`. -/
def resolveIdent (scope : List String) (name : String) : Except String Unit :=
  if name ∈ scope then Except.ok () else
    Except.error ("ReferenceError: " ++ name ++ " is not defined")

/-- The module-level bindings of `services/billService.js`: its two
imports (`Bill` from the model, `cacheService`), the `CACHE_EXPIRY`
constant, and its own exported declarations.  `redisClient` is absent —
the module never imports it. -/
def billServiceScope : List String :=
  ["Bill", "cacheService", "CACHE_EXPIRY",
   "cacheBillList", "getCachedBillList", "cacheBill", "getCachedBill",
   "cacheBillByNumber", "getCachedBillByNumber", "cacheBillStats",
   "getCachedBillStats", "invalidateBillListCache", "invalidateBillCache",
   "invalidateBillByNumberCache", "invalidateBillStatsCache",
   "getBillsByDateRange", "calculateBillStats", "getPopularProducts",
   "exportBills"]

/-- `CACHE_EXPIRY` of `services/billService.js`, in seconds. -/
def BILL_LIST_EXPIRY : Nat := 5 * 60
def BILL_DETAIL_EXPIRY : Nat := 10 * 60
def BILL_STATS_EXPIRY : Nat := 1 * 60

/-- `billService.cacheBillList(userId, bills)`: builds `bills:${userId}`
and calls `redisClient.setEx`; the unresolved `redisClient` throws inside
the `try`, and the `catch` returns `false`. -/
def cacheBillList (c : Cache) (userId : String) (bills : JsData) :
    Cache × Bool :=
  let key := "bills:" ++ userId
  match resolveIdent billServiceScope "redisClient" with
  | Except.error _ => (c, false)
  | Except.ok _ => (cacheSetEx c key BILL_LIST_EXPIRY bills, true)

/-- `billService.getCachedBillList(userId)`: the unresolved
`redisClient.get` throws; the `catch` returns `null`. -/
def getCachedBillList (c : Cache) (userId : String) : Option JsData :=
  let key := "bills:" ++ userId
  match resolveIdent billServiceScope "redisClient" with
  | Except.error _ => none
  | Except.ok _ => cacheGet c key

/-- `billService.cacheBill(billId, billData)`. -/
def cacheBill (c : Cache) (billId : String) (billData : JsData) :
    Cache × Bool :=
  let key := "bill:" ++ billId
  match resolveIdent billServiceScope "redisClient" with
  | Except.error _ => (c, false)
  | Except.ok _ => (cacheSetEx c key BILL_DETAIL_EXPIRY billData, true)

/-- `billService.getCachedBill(billId)`. -/
def getCachedBill (c : Cache) (billId : String) : Option JsData :=
  let key := "bill:" ++ billId
  match resolveIdent billServiceScope "redisClient" with
  | Except.error _ => none
  | Except.ok _ => cacheGet c key

/-- `billService.cacheBillByNumber(billNumber, billData)`. -/
def cacheBillByNumber (c : Cache) (billNumber : String) (billData : JsData) :
    Cache × Bool :=
  let key := "bill-number:" ++ billNumber
  match resolveIdent billServiceScope "redisClient" with
  | Except.error _ => (c, false)
  | Except.ok _ => (cacheSetEx c key BILL_DETAIL_EXPIRY billData, true)

/-- `billService.getCachedBillByNumber(billNumber)`. -/
def getCachedBillByNumber (c : Cache) (billNumber : String) : Option JsData :=
  let key := "bill-number:" ++ billNumber
  match resolveIdent billServiceScope "redisClient" with
  | Except.error _ => none
  | Except.ok _ => cacheGet c key

/-- `billService.cacheBillStats(statsKey, statsData)`. -/
def cacheBillStats (c : Cache) (statsKey : String) (statsData : JsData) :
    Cache × Bool :=
  let key := "bill-stats:" ++ statsKey
  match resolveIdent billServiceScope "redisClient" with
  | Except.error _ => (c, false)
  | Except.ok _ => (cacheSetEx c key BILL_STATS_EXPIRY statsData, true)

/-- `billService.getCachedBillStats(statsKey)`. -/
def getCachedBillStats (c : Cache) (statsKey : String) : Option JsData :=
  let key := "bill-stats:" ++ statsKey
  match resolveIdent billServiceScope "redisClient" with
  | Except.error _ => none
  | Except.ok _ => cacheGet c key

/-- `billService.invalidateBillListCache(userId)`. -/
def invalidateBillListCache (c : Cache) (userId : String) : Cache × Bool :=
  let key := "bills:" ++ userId
  match resolveIdent billServiceScope "redisClient" with
  | Except.error _ => (c, false)
  | Except.ok _ => (cacheDel c key, true)

/-- `billService.invalidateBillCache(billId)`. -/
def invalidateBillCache (c : Cache) (billId : String) : Cache × Bool :=
  let key := "bill:" ++ billId
  match resolveIdent billServiceScope "redisClient" with
  | Except.error _ => (c, false)
  | Except.ok _ => (cacheDel c key, true)

/-- `billService.invalidateBillByNumberCache(billNumber)`. -/
def invalidateBillByNumberCache (c : Cache) (billNumber : String) :
    Cache × Bool :=
  let key := "bill-number:" ++ billNumber
  match resolveIdent billServiceScope "redisClient" with
  | Except.error _ => (c, false)
  | Except.ok _ => (cacheDel c key, true)

/-- `billService.invalidateBillStatsCache()`: `redisClient.keys` with the
`bill-stats:*` pattern, then a bulk delete. -/
def invalidateBillStatsCache (c : Cache) : Cache × Bool :=
  match resolveIdent billServiceScope "redisClient" with
  | Except.error _ => (c, false)
  | Except.ok _ =>
      (c.filter (fun e => ¬ (e.1.startsWith "bill-stats:")), true)

/-- The store before any inventory operation has run. -/
def emptyStore : Store :=
  { products := [], inventory := [], nextPid := 0, nextIid := 0 }

/-- The status/quantity coherence every mutating handler re-establishes
for the records it writes. -/
def statusCoherent (r : Inventory) : Prop :=
  r.status = deriveStatus r.quantity r.minStock

instance (r : Inventory) : Decidable (statusCoherent r) := by
  unfold statusCoherent
  infer_instance

/-- All records of a store are status-coherent. -/
def invariantHolds (s : Store) : Prop :=
  ∀ r ∈ s.inventory, statusCoherent r

/-- Stores reachable from the empty store by the inventory mutation
endpoints, with arbitrary request bodies. -/
inductive Reachable : Store → Prop where
  | init : Reachable emptyStore
  | post (s : Store) (b : PostInvBody) :
      Reachable s → Reachable (postInventory s b).1
  | register (s : Store) (b : RegisterBody) :
      Reachable s → Reachable (registerBarcode s b).1
  | update (s : Store) (iid : Nat) (b : PutInvBody) :
      Reachable s → Reachable (putInventory s iid b).1
  | adjust (s : Store) (iid : Nat) (dq : Option Int) :
      Reachable s → Reachable (adjustQuantity s iid dq).1
  | deduct (s : Store) (items : Option (List BillItemIn)) :
      Reachable s → Reachable (deductBill s items).1

/-- The record-level property asserted by the specification's inventory
invariant: a non-negative quantity and the three-way status
characterisation with `Low Stock` tied to `0 < quantity ≤ minStock`. -/
def specInvariant (r : Inventory) : Prop :=
  0 ≤ r.quantity ∧
  (r.status = "Out of Stock" ↔ r.quantity = 0) ∧
  (r.status = "Low Stock" ↔ 0 < r.quantity ∧ r.quantity ≤ r.minStock) ∧
  (r.status = "In Stock" ↔
    ¬ r.quantity = 0 ∧ ¬ (0 < r.quantity ∧ r.quantity ≤ r.minStock))

instance (r : Inventory) : Decidable (specInvariant r) := by
  unfold specInvariant
  infer_instance

/-- Registration request used by the concrete scenarios below. -/
def exRegisterBody : RegisterBody :=
  { barcode := some "b1"
    name := some "Cookies"
    price := some 5
    category := some "Snacks"
    brand := none
    quantity := some 3
    location := none
    warehouse := none }

/-- Store holding one product and one inventory record (quantity 3,
minStock 10), obtained by one `register-barcode` call. -/
def exStore1 : Store := (registerBarcode emptyStore exRegisterBody).1

/-- `exStore1` after `adjust-quantity` by −5: the record's quantity is −2. -/
def exStore2 : Store := (adjustQuantity exStore1 0 (some (-5))).1

/-- One inbound request to the inventory router. -/
inductive InvRequest where
  | list (f : InvFilters)
  | post (b : PostInvBody)
  | register (b : RegisterBody)
  | put (iid : Nat) (b : PutInvBody)
  | adjust (iid : Nat) (dq : Option Int)
  | deduct (items : Option (List BillItemIn))
  deriving Repr, DecidableEq

/-- The possible response payloads of the inventory router. -/
inductive InvResponse where
  | listR (r : ListResp)
  | invR (r : RouteResult Inventory)
  | regR (r : RouteResult (Product × Inventory))
  | deductR (r : RouteResult DeductResp)
  deriving Repr, DecidableEq

/-- The inventory router acting on the shared store and redis cache: the
list endpoint is the only handler that touches the cache (the mutating
handlers contain no cacheService call at all). -/
def invApi (s : Store) (c : Cache) : InvRequest → Store × Cache × InvResponse
  | .list f =>
      let (c', resp) := getInventoryList s c f
      (s, c', .listR resp)
  | .post b =>
      let (s', r) := postInventory s b
      (s', c, .invR r)
  | .register b =>
      let (s', r) := registerBarcode s b
      (s', c, .regR r)
  | .put iid b =>
      let (s', r) := putInventory s iid b
      (s', c, .invR r)
  | .adjust iid dq =>
      let (s', r) := adjustQuantity s iid dq
      (s', c, .invR r)
  | .deduct items =>
      let (s', r) := deductBill s items
      (s', c, .deductR r)

/-- Number of bills paid with a given method (the spec's "its bill
count"). -/
def specMethodCount (bills : List Bill) (m : String) : Nat :=
  (bills.filter (fun b => b.paymentMethod = m)).length

/-- Summed totals of bills paid with a given method (the spec's "summed
total"). -/
def specMethodTotal (bills : List Bill) (m : String) : Rat :=
  ((bills.filter (fun b => b.paymentMethod = m)).map (fun b => b.total)).sum

theorem mem_saveInv {s : Store} {r x : Inventory}
    (h : x ∈ (saveInv s r).inventory) : x ∈ s.inventory ∨ x = r := by
  unfold saveInv at h
  simp only [List.mem_map] at h
  obtain ⟨y, hy, hyx⟩ := h
  by_cases hid : y.id = r.id
  · simp [hid] at hyx
    exact Or.inr hyx.symm
  · simp [hid] at hyx
    exact Or.inl (hyx ▸ hy)

theorem mem_insertInv {s : Store} {r x : Inventory}
    (h : x ∈ (insertInv s r).inventory) : x ∈ s.inventory ∨ x = r := by
  unfold insertInv at h
  simp only [List.mem_append, List.mem_singleton] at h
  exact h

theorem saveProduct_inventory (s : Store) (p : Product) :
    (saveProduct s p).inventory = s.inventory := rfl

theorem insertProduct_inventory (s : Store) (p : Product) :
    (insertProduct s p).inventory = s.inventory := rfl

/-- Every record written by `POST /api/inventory` is status-coherent. -/
theorem postInventory_writes (s : Store) (b : PostInvBody) :
    ∀ r ∈ (postInventory s b).1.inventory,
      r ∈ s.inventory ∨ statusCoherent r := by
  intro r hr
  unfold postInventory at hr
  split at hr
  · exact Or.inl hr
  · dsimp only at hr
    split at hr
    · exact Or.inl hr
    · rename_i product hprod
      split at hr
      · -- update branch
        rcases mem_saveInv hr with h | h
        · left
          cases product with
          | some p => rwa [saveProduct_inventory] at h
          | none => exact h
        · right; rw [h]; rfl
      · -- create branch
        split at hr
        · exact Or.inl hr
        · split at hr
          · exact Or.inl hr
          · rcases mem_insertInv hr with h | h
            · left
              cases product with
              | some p => rwa [saveProduct_inventory] at h
              | none => exact h
            · right; rw [h]; rfl

/-- Every record written by `register-barcode` is status-coherent. -/
theorem registerBarcode_writes (s : Store) (b : RegisterBody) :
    ∀ r ∈ (registerBarcode s b).1.inventory,
      r ∈ s.inventory ∨ statusCoherent r := by
  intro r hr
  unfold registerBarcode at hr
  split at hr
  · exact Or.inl hr
  · dsimp only at hr
    rw [saveProduct_inventory] at hr
    split at hr
    · -- existing inventory: saveInv of a derived-status record
      rcases mem_saveInv hr with h | h
      · left
        revert h
        split
        · exact id
        · rw [insertProduct_inventory]; exact id
      · right; rw [h]; rfl
    · -- new inventory: insertInv of a derived-status record
      rcases mem_insertInv hr with h | h
      · left
        revert h
        split
        · exact id
        · rw [insertProduct_inventory]; exact id
      · right; rw [h]; rfl

/-- Every record written by `PUT /api/inventory/:id` is status-coherent. -/
theorem putInventory_writes (s : Store) (iid : Nat) (b : PutInvBody) :
    ∀ r ∈ (putInventory s iid b).1.inventory,
      r ∈ s.inventory ∨ statusCoherent r := by
  intro r hr
  unfold putInventory at hr
  split at hr
  · exact Or.inl hr
  · dsimp only at hr
    split at hr
    · rw [saveProduct_inventory] at hr
      rcases mem_saveInv hr with h | h
      · exact Or.inl h
      · right; rw [h]; rfl
    · rcases mem_saveInv hr with h | h
      · exact Or.inl h
      · right; rw [h]; rfl

/-- Every record written by `adjust-quantity` is status-coherent. -/
theorem adjustQuantity_writes (s : Store) (iid : Nat) (dq : Option Int) :
    ∀ r ∈ (adjustQuantity s iid dq).1.inventory,
      r ∈ s.inventory ∨ statusCoherent r := by
  intro r hr
  unfold adjustQuantity at hr
  split at hr
  · exact Or.inl hr
  · split at hr
    · exact Or.inl hr
    · dsimp only at hr
      split at hr
      · rw [saveProduct_inventory] at hr
        rcases mem_saveInv hr with h | h
        · exact Or.inl h
        · right; rw [h]; rfl
      · rcases mem_saveInv hr with h | h
        · exact Or.inl h
        · right; rw [h]; rfl

/-- Every record written while processing one `deduct-bill` item is
status-coherent. -/
theorem processDeductItem_writes (s : Store) (it : BillItemIn) :
    ∀ r ∈ (processDeductItem s it).1.inventory,
      r ∈ s.inventory ∨ statusCoherent r := by
  intro r hr
  unfold processDeductItem at hr
  dsimp only at hr
  split at hr
  · exact Or.inl hr
  · split at hr
    · exact Or.inl hr
    · split at hr
      · rw [saveProduct_inventory] at hr
        rcases mem_saveInv hr with h | h
        · exact Or.inl h
        · right; rw [h]; rfl
      · rcases mem_saveInv hr with h | h
        · exact Or.inl h
        · right; rw [h]; rfl

/-- Every record written by the `deduct-bill` loop is status-coherent. -/
theorem deductLoop_writes (items : List BillItemIn) : ∀ (s : Store),
    ∀ r ∈ (deductLoop s items).1.inventory,
      r ∈ s.inventory ∨ statusCoherent r := by
  induction items with
  | nil => intro s r hr; exact Or.inl hr
  | cons it rest ih =>
      intro s r hr
      unfold deductLoop at hr
      split at hr
      · rename_i s1 d heq
        rcases hdl : deductLoop s1 rest with ⟨s2, ds, es⟩
        rw [hdl] at hr
        dsimp only at hr
        rcases ih s1 r (by rw [hdl]; exact hr) with h | h
        · exact processDeductItem_writes s it r (by rw [heq]; exact h)
        · exact Or.inr h
      · rename_i s1 e heq
        rcases hdl : deductLoop s1 rest with ⟨s2, ds, es⟩
        rw [hdl] at hr
        dsimp only at hr
        rcases ih s1 r (by rw [hdl]; exact hr) with h | h
        · exact processDeductItem_writes s it r (by rw [heq]; exact h)
        · exact Or.inr h

/-- Every record written by `POST /api/inventory/deduct-bill` is
status-coherent. -/
theorem deductBill_writes (s : Store) (billItems : Option (List BillItemIn)) :
    ∀ r ∈ (deductBill s billItems).1.inventory,
      r ∈ s.inventory ∨ statusCoherent r := by
  intro r hr
  unfold deductBill at hr
  split at hr
  · exact Or.inl hr
  · split at hr
    · exact Or.inl hr
    · dsimp only at hr
      rcases hdl : deductLoop s _ with ⟨s2, ds, es⟩
      rw [hdl] at hr
      exact deductLoop_writes _ s r (by rw [hdl]; exact hr)

/-- C1: for every inventory mutation (create-or-restock, barcode
registration, full update, adjustQuantity, and each per-item deduction
in deductForBill), every record persisted by the operation carries
`status = deriveStatus quantity minStock` — equivalently, every record
of the resulting store is either an untouched record of the input store
or status-coherent, so no code path persists a quantity without
recomputing the status from it in the same update. -/
theorem claim1_status_recomputed_on_every_write :
    (∀ (s : Store) (b : PostInvBody), ∀ r ∈ (postInventory s b).1.inventory,
        r ∈ s.inventory ∨ statusCoherent r) ∧
    (∀ (s : Store) (b : RegisterBody), ∀ r ∈ (registerBarcode s b).1.inventory,
        r ∈ s.inventory ∨ statusCoherent r) ∧
    (∀ (s : Store) (iid : Nat) (b : PutInvBody),
        ∀ r ∈ (putInventory s iid b).1.inventory,
        r ∈ s.inventory ∨ statusCoherent r) ∧
    (∀ (s : Store) (iid : Nat) (dq : Option Int),
        ∀ r ∈ (adjustQuantity s iid dq).1.inventory,
        r ∈ s.inventory ∨ statusCoherent r) ∧
    (∀ (s : Store) (billItems : Option (List BillItemIn)),
        ∀ r ∈ (deductBill s billItems).1.inventory,
        r ∈ s.inventory ∨ statusCoherent r) :=
  ⟨postInventory_writes, registerBarcode_writes, putInventory_writes,
   adjustQuantity_writes, deductBill_writes⟩

/-- Witness for C1 at a concrete input: the record left by adjusting the
`exStore1` record by −5 is status-coherent. -/
theorem claim1_witness :
    ({ id := 0, productId := 0, barcode := some "b1", quantity := -2,
       minStock := 10, location := "Main Store", warehouse := "Default",
       notes := none, status := "Low Stock" } : Inventory) ∈ exStore1.inventory ∨
    statusCoherent
      { id := 0, productId := 0, barcode := some "b1", quantity := -2,
        minStock := 10, location := "Main Store", warehouse := "Default",
        notes := none, status := "Low Stock" } :=
  claim1_status_recomputed_on_every_write.2.2.2.1 exStore1 0 (some (-5))
    { id := 0, productId := 0, barcode := some "b1", quantity := -2,
      minStock := 10, location := "Main Store", warehouse := "Default",
      notes := none, status := "Low Stock" }
    (by decide)

/-- C4 counterexample: the claimed invariant — quantity ≥ 0 together with
the three-way status characterisation — fails on a reachable store:
registering quantity 3 and adjusting by −5 leaves a record with quantity
−2 (and status "Low Stock"). -/
theorem claim4_counterexample :
    ¬ (∀ s : Store, Reachable s → ∀ r ∈ s.inventory, specInvariant r) := by
  intro h
  have hreach : Reachable exStore2 :=
    Reachable.adjust exStore1 0 (some (-5))
      (Reachable.register emptyStore exRegisterBody Reachable.init)
  have hrec := h exStore2 hreach
    { id := 0, productId := 0, barcode := some "b1", quantity := -2,
      minStock := 10, location := "Main Store", warehouse := "Default",
      notes := none, status := "Low Stock" }
    (by decide)
  exact absurd hrec (by decide)

/-- C4 (amended): in every store reachable by the inventory operations,
every record satisfies `status = deriveStatus quantity minStock`
(Out of Stock iff quantity = 0, Low Stock iff quantity ≠ 0 and
quantity ≤ minStock, In Stock otherwise); the quantity need not be ≥ 0,
since adjust-quantity accepts arbitrary negative deltas. -/
theorem claim4_reachable_status_coherent :
    ∀ s : Store, Reachable s → invariantHolds s := by
  intro s h
  induction h with
  | init => intro r hr; cases hr
  | post s b _ ih =>
      intro r hr
      rcases postInventory_writes s b r hr with h | h
      · exact ih r h
      · exact h
  | register s b _ ih =>
      intro r hr
      rcases registerBarcode_writes s b r hr with h | h
      · exact ih r h
      · exact h
  | update s iid b _ ih =>
      intro r hr
      rcases putInventory_writes s iid b r hr with h | h
      · exact ih r h
      · exact h
  | adjust s iid dq _ ih =>
      intro r hr
      rcases adjustQuantity_writes s iid dq r hr with h | h
      · exact ih r h
      · exact h
  | deduct s items _ ih =>
      intro r hr
      rcases deductBill_writes s items r hr with h | h
      · exact ih r h
      · exact h

/-- Witness for C4 at a concrete input: the reachable store `exStore2`
satisfies the amended invariant. -/
theorem claim4_witness : invariantHolds exStore2 :=
  claim4_reachable_status_coherent exStore2
    (Reachable.adjust exStore1 0 (some (-5))
      (Reachable.register emptyStore exRegisterBody Reachable.init))

theorem find_replace {l : List Inventory} {r2 : Inventory}
    (h : ∃ x ∈ l, x.id = r2.id) :
    (l.map (fun x => if x.id = r2.id then r2 else x)).find?
      (fun y => y.id = r2.id) = some r2 := by
  induction l with
  | nil => rcases h with ⟨x, hx, _⟩; cases hx
  | cons a l ih =>
      by_cases ha : a.id = r2.id
      · simp [List.find?, ha]
      · have h' : ∃ x ∈ l, x.id = r2.id := by
          rcases h with ⟨x, hx, hxe⟩
          rcases List.mem_cons.mp hx with rfl | hx'
          · exact absurd hxe ha
          · exact ⟨x, hx', hxe⟩
        simpa [List.find?, ha] using ih h'

theorem findInvById_saveInv {s : Store} {r2 : Inventory}
    (h : ∃ x ∈ s.inventory, x.id = r2.id) :
    findInvById (saveInv s r2) r2.id = some r2 := by
  unfold findInvById saveInv
  exact find_replace h

theorem resolveDeductItem_mem {s : Store} {it : BillItemIn} {r : Inventory}
    (h : resolveDeductItem s it = some r) : r ∈ s.inventory := by
  unfold resolveDeductItem at h
  split at h
  · exact List.mem_of_find?_eq_some h
  · split at h
    · exact List.mem_of_find?_eq_some h
    · cases h

theorem findInvById_saveProduct (s : Store) (p : Product) (i : Nat) :
    findInvById (saveProduct s p) i = findInvById s i := rfl


theorem deductLoop_cons (s : Store) (it : BillItemIn) (rest : List BillItemIn) :
    deductLoop s (it :: rest) =
      match processDeductItem s it with
      | (t, Sum.inl d) =>
          ((deductLoop t rest).1, d :: (deductLoop t rest).2.1,
            (deductLoop t rest).2.2)
      | (t, Sum.inr e) =>
          ((deductLoop t rest).1, (deductLoop t rest).2.1,
            e :: (deductLoop t rest).2.2) := rfl

/-- C2: `deduct-bill` fails as a whole exactly when `billItems` is
missing/empty; otherwise it processes the items independently — the
response partitions the items (one deducted entry or one error each),
an unresolvable item or an item requesting more than the available
quantity is recorded as an item-level error with the store (hence that
record's quantity and status) left unchanged, a sufficient item is
decremented and recorded with its recomputed status, and an item-level
error never stops the processing of the remaining items. -/
theorem claim2_deduct_bill_independent_partition :
    (∀ (s : Store) (billItems : Option (List BillItemIn)),
        (deductBill s billItems).2 =
          RouteResult.err 400 "billItems array is required" ↔
        (billItems = none ∨ billItems = some [])) ∧
    (∀ (s : Store) (items : List BillItemIn),
        (deductLoop s items).2.1.length + (deductLoop s items).2.2.length =
          items.length) ∧
    (∀ (s : Store) (items : List BillItemIn), items ≠ [] →
        (deductBill s (some items)).2 =
          RouteResult.ok
            { deductedItems := (deductLoop s items).2.1
              errors := (deductLoop s items).2.2 }) ∧
    (∀ (s : Store) (it : BillItemIn),
        resolveDeductItem s it = none →
        processDeductItem s it =
          (s, Sum.inr { product := itemDisplay it
                        error := "Inventory item not found" })) ∧
    (∀ (s : Store) (it : BillItemIn) (r : Inventory),
        resolveDeductItem s it = some r → r.quantity < it.quantity →
        processDeductItem s it =
          (s, Sum.inr
            { product := itemDisplay it
              error := "Insufficient quantity. Available: " ++
                toString r.quantity ++ ", Required: " ++
                toString it.quantity })) ∧
    (∀ (s : Store) (it : BillItemIn) (r : Inventory),
        resolveDeductItem s it = some r → ¬ r.quantity < it.quantity →
        (processDeductItem s it).2 = Sum.inl
          { barcode := r.barcode
            name := it.name
            quantity := it.quantity
            remainingQuantity := r.quantity - it.quantity
            status := deriveStatus (r.quantity - it.quantity) r.minStock } ∧
        findInvById (processDeductItem s it).1 r.id =
          some { r with quantity := r.quantity - it.quantity
                        status := deriveStatus (r.quantity - it.quantity) r.minStock }) ∧
    (∀ (s s1 : Store) (it : BillItemIn) (rest : List BillItemIn) (e : ItemError),
        processDeductItem s it = (s1, Sum.inr e) →
        deductLoop s (it :: rest) =
          ((deductLoop s1 rest).1, (deductLoop s1 rest).2.1,
            e :: (deductLoop s1 rest).2.2)) := by
  refine ⟨?_, ?_, ?_, ?_, ?_, ?_, ?_⟩
  · intro s bi
    cases bi with
    | none => simp [deductBill]
    | some items =>
        cases items with
        | nil => simp [deductBill]
        | cons a l =>
            unfold deductBill
            rcases h : deductLoop s (a :: l) with ⟨s1, ds, es⟩
            simp [h]
  · intro s items
    induction items generalizing s with
    | nil => simp [deductLoop]
    | cons it rest ih =>
        rw [deductLoop_cons]
        rcases hp : processDeductItem s it with ⟨s1, res⟩
        cases res with
        | inl d => have := ih s1; simp only [List.length_cons]; omega
        | inr e => have := ih s1; simp only [List.length_cons]; omega
  · intro s items hne
    unfold deductBill
    rcases h : deductLoop s items with ⟨s1, ds, es⟩
    have hne' : items.isEmpty = false := by
      cases items with
      | nil => exact absurd rfl hne
      | cons a l => rfl
    simp [hne', h]
  · intro s it hres
    unfold processDeductItem
    rw [hres]
  · intro s it r hres hlt
    unfold processDeductItem
    rw [hres]
    simp [hlt]
  · intro s it r hres hnlt
    have hm := resolveDeductItem_mem hres
    constructor
    · unfold processDeductItem
      rw [hres]
      dsimp only
      rw [if_neg hnlt]
    · unfold processDeductItem
      rw [hres]
      dsimp only
      rw [if_neg hnlt]
      dsimp only
      split
      · rw [findInvById_saveProduct]
        exact findInvById_saveInv ⟨r, hm, rfl⟩
      · exact findInvById_saveInv ⟨r, hm, rfl⟩
  · intro s s1 it rest e hp
    rw [deductLoop_cons, hp]

/-- Witness for C2 at concrete inputs: on `exStore1` (one record with
quantity 3) requesting 9 yields an insufficient-stock error with the
store untouched, while requesting 3 succeeds, leaving quantity 0 and
status Out of Stock. -/
theorem claim2_witness :
    (processDeductItem exStore1
        { barcode := some "b1", id := none, quantity := 9, name := some "Cookies" } =
      (exStore1, Sum.inr
        { product := "Cookies"
          error := "Insufficient quantity. Available: 3, Required: 9" })) ∧
    ((processDeductItem exStore1
        { barcode := some "b1", id := none, quantity := 3, name := some "Cookies" }).2 =
      Sum.inl
        { barcode := some "b1", name := some "Cookies", quantity := 3,
          remainingQuantity := 0, status := "Out of Stock" } ∧
     findInvById (processDeductItem exStore1
        { barcode := some "b1", id := none, quantity := 3, name := some "Cookies" }).1 0 =
      some { id := 0, productId := 0, barcode := some "b1", quantity := 0,
             minStock := 10, location := "Main Store", warehouse := "Default",
             notes := none, status := "Out of Stock" }) :=
  ⟨claim2_deduct_bill_independent_partition.2.2.2.2.1 exStore1
      { barcode := some "b1", id := none, quantity := 9, name := some "Cookies" }
      { id := 0, productId := 0, barcode := some "b1", quantity := 3,
        minStock := 10, location := "Main Store", warehouse := "Default",
        notes := none, status := "Low Stock" }
      (by decide) (by decide),
   claim2_deduct_bill_independent_partition.2.2.2.2.2.1 exStore1
      { barcode := some "b1", id := none, quantity := 3, name := some "Cookies" }
      { id := 0, productId := 0, barcode := some "b1", quantity := 3,
        minStock := 10, location := "Main Store", warehouse := "Default",
        notes := none, status := "Low Stock" }
      (by decide) (by decide)⟩

/-- Symbolic execution of `POST /api/inventory` in the restock branch
when no productId is supplied and the barcode resolves to a record. -/
theorem postInventory_update_noPid (s : Store) (b : PostInvBody) (r : Inventory)
    (hpid : b.productId = none)
    (hbc : truthyStr b.barcode = true)
    (hfound : findInvByBarcode s (b.barcode.getD "") = some r)
    (hq : truthyInt b.quantity = true) :
    postInventory s b =
      (saveInv s
        { r with quantity := r.quantity + b.quantity.getD 0
                 minStock := jsOrInt b.minStock r.minStock
                 location := jsOrStr b.location r.location
                 warehouse := jsOrStr b.warehouse r.warehouse
                 status := deriveStatus (r.quantity + b.quantity.getD 0)
                   (jsOrInt b.minStock r.minStock) },
       RouteResult.ok
        { r with quantity := r.quantity + b.quantity.getD 0
                 minStock := jsOrInt b.minStock r.minStock
                 location := jsOrStr b.location r.location
                 warehouse := jsOrStr b.warehouse r.warehouse
                 status := deriveStatus (r.quantity + b.quantity.getD 0)
                   (jsOrInt b.minStock r.minStock) }) := by
  unfold postInventory
  simp only [hpid, hq, hbc, if_true, hfound, not_true, if_false]

/-- Symbolic execution of `POST /api/inventory` in the create branch when
a productId resolves and the supplied barcode matches no record. -/
theorem postInventory_create_pid (s : Store) (b : PostInvBody)
    (pid : Nat) (p : Product)
    (hpid : b.productId = some pid)
    (hp : findProduct s pid = some p)
    (hbc : truthyStr b.barcode = true)
    (hfound : findInvByBarcode s (b.barcode.getD "") = none)
    (hq : truthyInt b.quantity = true) :
    postInventory s b =
      (insertInv
        (saveProduct s
          { p with stock := some (b.quantity.getD 0)
                   barcode := jsOrStrOpt b.barcode p.barcode })
        { id := s.nextIid
          productId := pid
          barcode := b.barcode
          quantity := b.quantity.getD 0
          minStock := jsOrInt b.minStock 10
          location := jsOrStr b.location "Main Store"
          warehouse := jsOrStr b.warehouse "Default"
          notes := none
          status := deriveStatus (b.quantity.getD 0) (jsOrInt b.minStock 10) },
       RouteResult.ok
        { id := s.nextIid
          productId := pid
          barcode := b.barcode
          quantity := b.quantity.getD 0
          minStock := jsOrInt b.minStock 10
          location := jsOrStr b.location "Main Store"
          warehouse := jsOrStr b.warehouse "Default"
          notes := none
          status := deriveStatus (b.quantity.getD 0) (jsOrInt b.minStock 10) }) := by
  unfold postInventory
  simp only [hpid, hq, hbc, if_true, hp, hfound, not_true, if_false,
    false_and, and_false, if_neg, not_false_iff]

theorem filter_map_replace (l : List Inventory) (R1 R2 : Inventory) (bc : String)
    (hid : R1.id = R2.id)
    (hfresh : ∀ x ∈ l, x.id ≠ R2.id)
    (hnone : ∀ x ∈ l, x.barcode ≠ some bc)
    (hbc2 : R2.barcode = some bc) :
    (((l ++ [R1]).map (fun x => if x.id = R2.id then R2 else x)).filter
      (fun x => x.barcode = some bc)).map (fun x => x.quantity) = [R2.quantity] := by
  rw [List.map_append, List.filter_append]
  rw [List.map_congr_left (fun x hx => if_neg (hfresh x hx))]
  rw [show (l.map fun x => x) = l from List.map_id l]
  rw [List.filter_eq_nil_iff.mpr (fun a ha => by simpa using hnone a ha)]
  simp [hid, hbc2]

/-- Two create-or-restock calls against the same barcode: the first
(carrying a resolvable productId) creates the record, the second (bare
barcode) accumulates onto it; exactly one record with that barcode
remains and its quantity is the sum. -/
theorem postInventory_accumulates (s : Store) (pid : Nat) (p : Product)
    (bc : String) (q1 q2 : Int)
    (hp : findProduct s pid = some p)
    (hbc0 : findInvByBarcode s bc = none)
    (hfresh : ∀ x ∈ s.inventory, x.id ≠ s.nextIid)
    (hbcne : bc ≠ "") (hq1 : q1 ≠ 0) (hq2 : q2 ≠ 0) :
    (((postInventory
        (postInventory s
          { productId := some pid, barcode := some bc, quantity := some q1
            minStock := none, location := none, warehouse := none }).1
        { productId := none, barcode := some bc, quantity := some q2
          minStock := none, location := none, warehouse := none }).1.inventory.filter
      (fun x => x.barcode = some bc)).map (fun x => x.quantity)) = [q1 + q2] := by
  have hbc' : truthyStr (some bc) = true := by simp [truthyStr, hbcne]
  have hq1' : truthyInt (some q1) = true := by simp [truthyInt, hq1]
  have hq2' : truthyInt (some q2) = true := by simp [truthyInt, hq2]
  have e1 := postInventory_create_pid s
    { productId := some pid, barcode := some bc, quantity := some q1
      minStock := none, location := none, warehouse := none } pid p rfl hp hbc' hbc0 hq1'
  have hinv1 : (postInventory s
      { productId := some pid, barcode := some bc, quantity := some q1
        minStock := none, location := none, warehouse := none }).1.inventory =
      s.inventory ++
        [{ id := s.nextIid, productId := pid, barcode := some bc, quantity := q1
           minStock := 10, location := "Main Store", warehouse := "Default"
           notes := none, status := deriveStatus q1 10 }] := by
    rw [e1]
    rfl
  have hfound2 : findInvByBarcode (postInventory s
      { productId := some pid, barcode := some bc, quantity := some q1
        minStock := none, location := none, warehouse := none }).1 bc =
      some { id := s.nextIid, productId := pid, barcode := some bc, quantity := q1
             minStock := 10, location := "Main Store", warehouse := "Default"
             notes := none, status := deriveStatus q1 10 } := by
    unfold findInvByBarcode
    rw [hinv1, List.find?_append]
    unfold findInvByBarcode at hbc0
    rw [hbc0]
    simp [List.find?]
  have e2 := postInventory_update_noPid _
    { productId := none, barcode := some bc, quantity := some q2
      minStock := none, location := none, warehouse := none }
    _ rfl hbc' hfound2 hq2'
  rw [e2]
  unfold saveInv
  dsimp only [jsOrInt, jsOrStr, Option.getD]
  rw [hinv1]
  rw [filter_map_replace s.inventory
    { id := s.nextIid, productId := pid, barcode := some bc, quantity := q1
      minStock := 10, location := "Main Store", warehouse := "Default"
      notes := none, status := deriveStatus q1 10 }
    { id := s.nextIid, productId := pid, barcode := some bc, quantity := q1 + q2
      minStock := 10, location := "Main Store", warehouse := "Default"
      notes := none, status := deriveStatus (q1 + q2) 10 }
    bc rfl (fun x hx => hfresh x hx)
    (fun x hx => by simpa using List.find?_eq_none.mp hbc0 x hx) rfl]

/-- C3 counterexample: a supplied metadata field does not always
overwrite — supplying `minStock: 0` on a restock leaves the stored
minStock (5) in place, because the handler uses JS `||` against the
stored value and `0` is falsy. -/
theorem claim3_counterexample :
    ¬ (∀ (s : Store) (b : PostInvBody) (r2 : Inventory),
        (postInventory s b).2 = RouteResult.ok r2 →
        ∀ m : Int, b.minStock = some m → r2.minStock = m) := by
  intro h
  have := h
    { products := [{ id := 0, name := "P", price := 1, category := "Others"
                     brand := "", barcode := some "b", stock := some 7 }]
      inventory := [{ id := 0, productId := 0, barcode := some "b", quantity := 7
                      minStock := 5, location := "L", warehouse := "W"
                      notes := none, status := "In Stock" }]
      nextPid := 1, nextIid := 1 }
    { productId := none, barcode := some "b", quantity := some 1
      minStock := some 0, location := none, warehouse := none }
    { id := 0, productId := 0, barcode := some "b", quantity := 8
      minStock := 5, location := "L", warehouse := "W"
      notes := none, status := "In Stock" }
    (by decide) 0 rfl
  exact absurd this (by decide)

/-- C3 (amended): create-or-restock accumulates — two calls with the
same barcode leave exactly one record carrying quantity q1+q2; a found
record is updated with quantity added and metadata merged through JS
`||` (a truthy supplied field overwrites, an absent or falsy supplied
field — 0 or "" — is preserved); a created record defaults minStock
through `minStock || 10`; and the handler rejects a request carrying
neither productId nor a truthy barcode with a 400 validation error. -/
theorem claim3_found_or_create_amended :
    (∀ (s : Store) (pid : Nat) (p : Product) (bc : String) (q1 q2 : Int),
        findProduct s pid = some p →
        findInvByBarcode s bc = none →
        (∀ x ∈ s.inventory, x.id ≠ s.nextIid) →
        bc ≠ "" → q1 ≠ 0 → q2 ≠ 0 →
        (((postInventory
            (postInventory s
              { productId := some pid, barcode := some bc, quantity := some q1
                minStock := none, location := none, warehouse := none }).1
            { productId := none, barcode := some bc, quantity := some q2
              minStock := none, location := none, warehouse := none }).1.inventory.filter
          (fun x => x.barcode = some bc)).map (fun x => x.quantity)) = [q1 + q2]) ∧
    (∀ (s : Store) (b : PostInvBody) (r : Inventory),
        b.productId = none → truthyStr b.barcode = true →
        findInvByBarcode s (b.barcode.getD "") = some r →
        truthyInt b.quantity = true →
        (postInventory s b).2 = RouteResult.ok
          { r with quantity := r.quantity + b.quantity.getD 0
                   minStock := jsOrInt b.minStock r.minStock
                   location := jsOrStr b.location r.location
                   warehouse := jsOrStr b.warehouse r.warehouse
                   status := deriveStatus (r.quantity + b.quantity.getD 0)
                     (jsOrInt b.minStock r.minStock) }) ∧
    (∀ (d : Int) (ds : String),
        jsOrInt none d = d ∧ jsOrInt (some 0) d = d ∧
        (∀ v : Int, v ≠ 0 → jsOrInt (some v) d = v) ∧
        jsOrStr none ds = ds ∧ jsOrStr (some "") ds = ds ∧
        (∀ v : String, v ≠ "" → jsOrStr (some v) ds = v)) ∧
    (∀ (s : Store) (b : PostInvBody) (pid : Nat) (p : Product),
        b.productId = some pid →
        findProduct s pid = some p →
        truthyStr b.barcode = true →
        findInvByBarcode s (b.barcode.getD "") = none →
        truthyInt b.quantity = true →
        (postInventory s b).2 = RouteResult.ok
          { id := s.nextIid
            productId := pid
            barcode := b.barcode
            quantity := b.quantity.getD 0
            minStock := jsOrInt b.minStock 10
            location := jsOrStr b.location "Main Store"
            warehouse := jsOrStr b.warehouse "Default"
            notes := none
            status := deriveStatus (b.quantity.getD 0) (jsOrInt b.minStock 10) }) ∧
    (∀ (s : Store) (b : PostInvBody),
        b.productId = none → truthyStr b.barcode = false →
        truthyInt b.quantity = true →
        postInventory s b =
          (s, RouteResult.err 400
            "Either productId or barcode is required for new inventory")) := by
  refine ⟨postInventory_accumulates, ?_, ?_, ?_, ?_⟩
  · intro s b r h1 h2 h3 h4
    rw [postInventory_update_noPid s b r h1 h2 h3 h4]
  · intro d ds
    refine ⟨rfl, ?_, ?_, rfl, ?_, ?_⟩
    · simp [jsOrInt]
    · intro v hv; simp [jsOrInt, hv]
    · simp [jsOrStr]
    · intro v hv; simp [jsOrStr, hv]
  · intro s b pid p h1 h2 h3 h4 h5
    rw [postInventory_create_pid s b pid p h1 h2 h3 h4 h5]
  · intro s b h1 h2 h3
    unfold postInventory
    simp [h1, h2, h3]

/-- Witness for C3 at concrete inputs: two calls with barcode "z" and
quantities 4 and 6 leave one record with quantity 10, and a call with
neither productId nor barcode is rejected with a 400. -/
theorem claim3_witness :
    ((((postInventory
        (postInventory
          { products := [{ id := 0, name := "P", price := 1, category := "Others"
                           brand := "", barcode := none, stock := none }]
            inventory := [], nextPid := 1, nextIid := 0 }
          { productId := some 0, barcode := some "z", quantity := some 4
            minStock := none, location := none, warehouse := none }).1
        { productId := none, barcode := some "z", quantity := some 6
          minStock := none, location := none, warehouse := none }).1.inventory.filter
      (fun x => x.barcode = some "z")).map (fun x => x.quantity)) = [(10 : Int)]) ∧
    (postInventory
      { products := [], inventory := [], nextPid := 0, nextIid := 0 }
      { productId := none, barcode := none, quantity := some 5
        minStock := none, location := none, warehouse := none } =
      ({ products := [], inventory := [], nextPid := 0, nextIid := 0 },
        RouteResult.err 400
          "Either productId or barcode is required for new inventory")) :=
  ⟨claim3_found_or_create_amended.1
      { products := [{ id := 0, name := "P", price := 1, category := "Others"
                       brand := "", barcode := none, stock := none }]
        inventory := [], nextPid := 1, nextIid := 0 }
      0
      { id := 0, name := "P", price := 1, category := "Others"
        brand := "", barcode := none, stock := none }
      "z" 4 6 (by decide) rfl (by decide) (by decide) (by decide) (by decide),
   claim3_found_or_create_amended.2.2.2.2
      { products := [], inventory := [], nextPid := 0, nextIid := 0 }
      { productId := none, barcode := none, quantity := some 5
        minStock := none, location := none, warehouse := none }
      rfl rfl (by decide)⟩

theorem find_replace_product {l : List Product} {p2 : Product}
    (h : ∃ x ∈ l, x.id = p2.id) :
    (l.map (fun x => if x.id = p2.id then p2 else x)).find?
      (fun y => y.id = p2.id) = some p2 := by
  induction l with
  | nil => rcases h with ⟨x, hx, _⟩; cases hx
  | cons a l ih =>
      by_cases ha : a.id = p2.id
      · simp [List.find?, ha]
      · have h' : ∃ x ∈ l, x.id = p2.id := by
          rcases h with ⟨x, hx, hxe⟩
          rcases List.mem_cons.mp hx with rfl | hx'
          · exact absurd hxe ha
          · exact ⟨x, hx', hxe⟩
        simpa [List.find?, ha] using ih h'

theorem findProduct_saveInv (s : Store) (r : Inventory) (pid : Nat) :
    findProduct (saveInv s r) pid = findProduct s pid := rfl

theorem findProduct_insertInv (s : Store) (r : Inventory) (pid : Nat) :
    findProduct (insertInv s r) pid = findProduct s pid := rfl

/-- Saving a modified copy of the product found at `pid` makes the later
lookup at `pid` return the modified copy. -/
theorem findProduct_saveProduct_self (s : Store) (p p2 : Product) (pid : Nat)
    (hp : findProduct s pid = some p) (hid : p2.id = p.id) :
    findProduct (saveProduct s p2) pid = some p2 := by
  have hpid : p.id = pid := by simpa using List.find?_some hp
  have hmem : p ∈ s.products := List.mem_of_find?_eq_some hp
  subst hpid
  rw [← hid]
  unfold findProduct saveProduct
  dsimp only
  exact find_replace_product ⟨p, hmem, hid.symm⟩

/-- C5 counterexample: a restock through a bare barcode — no productId in
the request — updates the record but not its associated (and perfectly
resolvable) product: the product keeps stock 7 while the record moves to
quantity 10. -/
theorem claim5_counterexample :
    ¬ (∀ (s : Store) (b : PostInvBody) (r2 : Inventory) (p : Product),
        (postInventory s b).2 = RouteResult.ok r2 →
        findProduct (postInventory s b).1 r2.productId = some p →
        p.stock = some r2.quantity) := by
  intro h
  have := h
    { products := [{ id := 0, name := "P", price := 1, category := "Others"
                     brand := "", barcode := some "b", stock := some 7 }]
      inventory := [{ id := 0, productId := 0, barcode := some "b", quantity := 7
                      minStock := 5, location := "L", warehouse := "W"
                      notes := none, status := "In Stock" }]
      nextPid := 1, nextIid := 1 }
    { productId := none, barcode := some "b", quantity := some 3
      minStock := none, location := none, warehouse := none }
    { id := 0, productId := 0, barcode := some "b", quantity := 10
      minStock := 5, location := "L", warehouse := "W"
      notes := none, status := "In Stock" }
    { id := 0, name := "P", price := 1, category := "Others"
      brand := "", barcode := some "b", stock := some 7 }
    (by decide) (by decide)
  exact absurd this (by decide)

theorem findProduct_saveProduct_saveInv (s : Store) (r : Inventory)
    (p2 : Product) (pid : Nat) :
    findProduct (saveProduct (saveInv s r) p2) pid =
      findProduct (saveProduct s p2) pid := rfl

/-- C5 (amended): the stock mirror is maintained only for the product the
handler itself resolves.  After adjust-quantity, a per-item deduction, or
a full update with a quantity in the body, the product at the record's
productId (when it exists) carries stock = the record's new quantity;
after create-or-restock it is the product named by the request's
productId that is mirrored (with the barcode merged through JS `||`);
register-barcode returns its product with stock = the inventory quantity;
and a create-or-restock without a productId touches no product at all,
leaving the record's associated product stale. -/
theorem claim5_stock_mirror_amended :
    (∀ (s : Store) (iid : Nat) (dq : Option Int) (r2 : Inventory) (p : Product),
        (adjustQuantity s iid dq).2 = RouteResult.ok r2 →
        findProduct s r2.productId = some p →
        findProduct (adjustQuantity s iid dq).1 r2.productId =
          some { p with stock := some r2.quantity }) ∧
    (∀ (s : Store) (it : BillItemIn) (r : Inventory) (p : Product),
        resolveDeductItem s it = some r → ¬ r.quantity < it.quantity →
        findProduct s r.productId = some p →
        findProduct (processDeductItem s it).1 r.productId =
          some { p with stock := some (r.quantity - it.quantity) }) ∧
    (∀ (s : Store) (iid : Nat) (b : PutInvBody) (r2 : Inventory) (p : Product) (q : Int),
        (putInventory s iid b).2 = RouteResult.ok r2 →
        b.quantity = some q →
        findProduct s r2.productId = some p →
        findProduct (putInventory s iid b).1 r2.productId =
          some { p with stock := some r2.quantity }) ∧
    (∀ (s : Store) (b : PostInvBody) (pid : Nat) (p : Product) (r2 : Inventory),
        b.productId = some pid →
        findProduct s pid = some p →
        (postInventory s b).2 = RouteResult.ok r2 →
        findProduct (postInventory s b).1 pid =
          some { p with stock := some r2.quantity
                        barcode := jsOrStrOpt b.barcode p.barcode }) ∧
    (∀ (s : Store) (b : RegisterBody) (pr : Product × Inventory),
        (registerBarcode s b).2 = RouteResult.ok pr →
        pr.1.stock = some pr.2.quantity) ∧
    (∀ (s : Store) (b : PostInvBody),
        b.productId = none → (postInventory s b).1.products = s.products) := by
  refine ⟨?_, ?_, ?_, ?_, ?_, ?_⟩
  · intro s iid dq r2 p hok hp
    unfold adjustQuantity at hok ⊢
    split at hok
    · exact absurd hok (by simp)
    · split at hok
      · exact absurd hok (by simp)
      · dsimp only at hok ⊢
        rw [RouteResult.ok.injEq] at hok
        subst hok
        dsimp only at hp ⊢
        rw [findProduct_saveInv, hp]
        dsimp only
        rw [findProduct_saveProduct_saveInv]
        exact findProduct_saveProduct_self s p _ _ hp rfl
  · intro s it r p hres hnlt hp
    unfold processDeductItem
    rw [hres]
    dsimp only
    rw [if_neg hnlt]
    dsimp only
    rw [findProduct_saveInv, hp]
    dsimp only
    rw [findProduct_saveProduct_saveInv]
    exact findProduct_saveProduct_self s p _ _ hp rfl
  · intro s iid b r2 p q hok hq hp
    unfold putInventory at hok ⊢
    split at hok
    · exact absurd hok (by simp)
    · dsimp only at hok ⊢
      rw [RouteResult.ok.injEq] at hok
      subst hok
      dsimp only at hp ⊢
      rw [findProduct_saveInv, hp]
      dsimp only
      rw [findProduct_saveProduct_saveInv, hq]
      exact findProduct_saveProduct_self s p _ _ hp rfl
  · intro s b pid p r2 hpid hp hok
    unfold postInventory at hok ⊢
    split at hok
    · exact absurd hok (by simp)
    · rename_i hq0
      dsimp only at hok ⊢
      rw [hpid] at hok ⊢
      dsimp only at hok ⊢
      rw [hp] at hok ⊢
      dsimp only at hok ⊢
      split at hok
      · dsimp only at hok ⊢
        rw [RouteResult.ok.injEq] at hok
        subst hok
        rw [if_neg hq0]
        dsimp only
        rw [findProduct_saveInv]
        exact findProduct_saveProduct_self s p _ _ hp rfl
      · split at hok
        · exact absurd hok (by simp)
        · rename_i hguard
          dsimp only at hok ⊢
          rw [RouteResult.ok.injEq] at hok
          subst hok
          rw [if_neg hq0]
          dsimp only
          rw [if_neg hguard]
          dsimp only
          rw [findProduct_insertInv]
          exact findProduct_saveProduct_self s p _ _ hp rfl
  · intro s b pr hok
    unfold registerBarcode at hok
    split at hok
    · exact absurd hok (by simp)
    · dsimp only at hok
      rw [RouteResult.ok.injEq] at hok
      subst hok
      rfl
  · intro s b hpid
    unfold postInventory
    rw [hpid]
    split
    · rfl
    · dsimp only
      split
      · rfl
      · split
        · rfl
        · rfl

/-- Witness for C5 at a concrete input: adjusting the `exStore1` record
by −5 moves its product's stock mirror to −2. -/
theorem claim5_witness :
    findProduct (adjustQuantity exStore1 0 (some (-5))).1 0 =
      some { id := 0, name := "Cookies", price := 5, category := "Snacks"
             brand := "", barcode := some "b1", stock := some (-2) } :=
  claim5_stock_mirror_amended.1 exStore1 0 (some (-5))
    { id := 0, productId := 0, barcode := some "b1", quantity := -2
      minStock := 10, location := "Main Store", warehouse := "Default"
      notes := none, status := "Low Stock" }
    { id := 0, name := "Cookies", price := 5, category := "Snacks"
      brand := "", barcode := some "b1", stock := some 3 }
    (by decide) (by decide)

/-- C6 counterexample: a successful adjust-quantity call leaves the
unfiltered inventory-list cache entry present — the claim says every
quantity mutation leaves it absent. -/
theorem claim6_counterexample :
    ¬ (∀ (s : Store) (c : Cache) (iid : Nat) (dq : Option Int),
        cacheGet (invApi s c (.adjust iid dq)).2.1 "inventory:list" = none ∧
        cacheGet (invApi s c (.adjust iid dq)).2.1 "inventory:0" = none ∧
        cacheGet (invApi s c (.adjust iid dq)).2.1 "product:0" = none) := by
  intro h
  have := (h exStore1
    [("inventory:list", JsData.raw "cached-list", 1800)] 0 (some (-5))).1
  exact absurd this (by decide)

/-- C6 (amended): no inventory mutation route performs any cache
operation at all — the cache after create-or-restock, register-barcode,
full update, adjust-quantity, or deduct-bill equals the cache before,
so no entry is invalidated (the cacheService invalidation helpers are
never called by these handlers). -/
theorem claim6_no_cache_invalidation_amended :
    (∀ (s : Store) (c : Cache) (b : PostInvBody),
        (invApi s c (.post b)).2.1 = c) ∧
    (∀ (s : Store) (c : Cache) (b : RegisterBody),
        (invApi s c (.register b)).2.1 = c) ∧
    (∀ (s : Store) (c : Cache) (iid : Nat) (b : PutInvBody),
        (invApi s c (.put iid b)).2.1 = c) ∧
    (∀ (s : Store) (c : Cache) (iid : Nat) (dq : Option Int),
        (invApi s c (.adjust iid dq)).2.1 = c) ∧
    (∀ (s : Store) (c : Cache) (items : Option (List BillItemIn)),
        (invApi s c (.deduct items)).2.1 = c) :=
  ⟨fun _ _ _ => rfl, fun _ _ _ => rfl, fun _ _ _ _ => rfl,
   fun _ _ _ _ => rfl, fun _ _ _ => rfl⟩

/-- C7 counterexample: an unfiltered list read does not populate a cache
entry that the next unfiltered read can hit — the second consecutive
unfiltered read still reports `cached := false` (the handler reads key
`inventory:undefined` but writes under a different, list-derived key,
and the write itself fails for lack of a value argument). -/
theorem claim7_counterexample :
    ¬ (∀ (s : Store) (c : Cache),
        (getInventoryList s
          (getInventoryList s c
            { warehouse := none, status := none, search := none }).1
          { warehouse := none, status := none, search := none }).2.cached = true) := by
  intro h
  exact absurd (h exStore1 []) (by decide)

/-- C7 (amended): a read with any truthy filter bypasses the cache
entirely (cache unchanged, response computed from the store); an
unfiltered read consults key `inventory:undefined` — on a hit it returns
the cached payload with `cached := true`, on a miss it queries the store
and calls `cacheInventory(inventory)` with the list in the key position
and no value argument, a call that always fails and stores nothing, so
the cache is unchanged and the next unfiltered read misses again; the
configured inventory TTL constant is 30 minutes. -/
theorem claim7_list_cache_amended :
    (∀ (s : Store) (c : Cache) (f : InvFilters),
        (truthyStr f.warehouse = true ∨ truthyStr f.status = true ∨
          truthyStr f.search = true) →
        (getInventoryList s c f).1 = c ∧
        (getInventoryList s c f).2 =
          { count := (filterInventory s f).length
            data := filterInventory s f
            cached := false }) ∧
    (∀ (s : Store) (c : Cache) (f : InvFilters),
        ¬ (truthyStr f.warehouse = true ∨ truthyStr f.status = true ∨
            truthyStr f.search = true) →
        cacheGet c "inventory:undefined" = none →
        (getInventoryList s c f).1 = c ∧
        (getInventoryList s c f).2 =
          { count := (filterInventory s f).length
            data := filterInventory s f
            cached := false }) ∧
    (∀ (s : Store) (c : Cache) (f : InvFilters) (d : JsData),
        ¬ (truthyStr f.warehouse = true ∨ truthyStr f.status = true ∨
            truthyStr f.search = true) →
        cacheGet c "inventory:undefined" = some d →
        getInventoryList s c f =
          (c, { count := (jsDataToInvList d).length
                data := jsDataToInvList d
                cached := true })) ∧
    (∀ (c : Cache) (idv : JsData), cacheInventory c idv none = (c, false)) ∧
    CACHE_EXPIRY_INVENTORY = 30 * 60 := by
  refine ⟨?_, ?_, ?_, fun _ _ => rfl, rfl⟩
  · intro s c f hfil
    unfold getInventoryList
    rw [if_neg (not_not_intro hfil)]
    exact ⟨rfl, rfl⟩
  · intro s c f hfil hmiss
    unfold getInventoryList
    rw [if_pos hfil]
    rw [show getCachedInventory c none = cacheGet c "inventory:undefined" from rfl]
    rw [hmiss]
    exact ⟨rfl, rfl⟩
  · intro s c f d hfil hhit
    unfold getInventoryList
    rw [if_pos hfil]
    rw [show getCachedInventory c none = cacheGet c "inventory:undefined" from rfl]
    rw [hhit]

/-- Witness for C7 at concrete inputs: a warehouse-filtered read leaves a
populated cache untouched, and an unfiltered read on an empty cache
misses, returns the store data, and stores nothing. -/
theorem claim7_witness :
    ((getInventoryList exStore1 [("inventory:undefined", JsData.raw "x", 9)]
        { warehouse := some "Default", status := none, search := none }).1 =
      [("inventory:undefined", JsData.raw "x", 9)] ∧
     (getInventoryList exStore1 [("inventory:undefined", JsData.raw "x", 9)]
        { warehouse := some "Default", status := none, search := none }).2 =
      { count := (filterInventory exStore1
          { warehouse := some "Default", status := none, search := none }).length
        data := filterInventory exStore1
          { warehouse := some "Default", status := none, search := none }
        cached := false }) ∧
    ((getInventoryList exStore1 []
        { warehouse := none, status := none, search := none }).1 = [] ∧
     (getInventoryList exStore1 []
        { warehouse := none, status := none, search := none }).2 =
      { count := (filterInventory exStore1
          { warehouse := none, status := none, search := none }).length
        data := filterInventory exStore1
          { warehouse := none, status := none, search := none }
        cached := false }) :=
  ⟨claim7_list_cache_amended.1 exStore1
      [("inventory:undefined", JsData.raw "x", 9)]
      { warehouse := some "Default", status := none, search := none }
      (by decide),
   claim7_list_cache_amended.2.1 exStore1 []
      { warehouse := none, status := none, search := none }
      (by decide) rfl⟩

/-- C8 counterexample: (1) on a billNumber collision the handler fails
with a 500 instead of retrying with a fresh generator value — a valid
request against a store already holding "BILL-1000" at clock 1000
produces no bill; (2) `change` is not `amountReceived - total` whenever
amountReceived is supplied: a supplied `amountReceived = 0` is falsy in
JS, so the persisted change is 0 rather than `0 - total`. -/
theorem claim8_counterexample :
    (¬ (∀ (bills : List Bill) (now : Nat) (userId : Nat) (b : CreateBillBody)
          (items : List BillItem),
          b.items = some items → items ≠ [] → truthyStr b.paymentMethod = true →
          ∃ bill, (createBill bills now userId b).2 = RouteResult.ok bill)) ∧
    (¬ (∀ (bills : List Bill) (now : Nat) (userId : Nat) (b : CreateBillBody)
          (bill : Bill) (a : Rat),
          (createBill bills now userId b).2 = RouteResult.ok bill →
          b.amountReceived = some a → bill.change = a - b.total)) := by
  constructor
  · intro h1
    obtain ⟨bill, hb⟩ := h1
      [{ userId := 0, billNumber := "BILL-1000", items := [], subtotal := 0
         tax := 0, taxPercentage := 5, discount := 0, total := 0
         paymentMethod := "Cash", amountReceived := none, change := 0
         paymentStatus := "Completed" }]
      1000 0
      { items := some [{ productId := 0, productName := "X", quantity := 1
                         unitPrice := 7, totalPrice := 7 }]
        subtotal := 7, tax := 0, taxPercentage := 5, discount := 0, total := 7
        paymentMethod := some "Cash", amountReceived := none }
      [{ productId := 0, productName := "X", quantity := 1
         unitPrice := 7, totalPrice := 7 }]
      rfl (by decide) (by decide)
    rw [show (createBill
        [{ userId := 0, billNumber := "BILL-1000", items := [], subtotal := 0
           tax := 0, taxPercentage := 5, discount := 0, total := 0
           paymentMethod := "Cash", amountReceived := none, change := 0
           paymentStatus := "Completed" }]
        1000 0
        { items := some [{ productId := 0, productName := "X", quantity := 1
                           unitPrice := 7, totalPrice := 7 }]
          subtotal := 7, tax := 0, taxPercentage := 5, discount := 0, total := 7
          paymentMethod := some "Cash", amountReceived := none }).2 =
        RouteResult.err 500 "Failed to create bill" from by decide] at hb
    exact absurd hb (by simp)
  · intro h2
    have := h2 [] 5 0
      { items := some [{ productId := 0, productName := "X", quantity := 1
                         unitPrice := 7, totalPrice := 7 }]
        subtotal := 7, tax := 0, taxPercentage := 5, discount := 0, total := 7
        paymentMethod := some "Cash", amountReceived := some 0 }
      { userId := 0, billNumber := "BILL-5"
        items := [{ productId := 0, productName := "X", quantity := 1
                    unitPrice := 7, totalPrice := 7 }]
        subtotal := 7, tax := 0, taxPercentage := 5, discount := 0, total := 7
        paymentMethod := "Cash", amountReceived := some 0, change := 0
        paymentStatus := "Completed" }
      0 (by decide) rfl
    have h7 : (0 : Rat) = 0 - 7 := this
    norm_num at h7

/-- C8 (amended): createBill rejects a missing/empty items list and a
missing (or falsy) paymentMethod with a 400; a present paymentMethod
outside the schema enum (Cash/Card/UPI/Check) fails the save's mongoose
validation, returning 500 with nothing persisted; otherwise it appends —
never overwrites — a bill with paymentStatus Completed, billNumber
"BILL-" + now, and change computed by the JS ternary (0 when
amountReceived is absent or 0, amountReceived − total otherwise); when
the generated billNumber already exists in the store, the unique index
makes the save fail with a 500 — there is no retry and the store is
left unchanged. -/
theorem claim8_create_bill_amended :
    (∀ (bills : List Bill) (now userId : Nat) (b : CreateBillBody),
        b.items = none ∨ b.items = some [] →
        createBill bills now userId b =
          (bills, RouteResult.err 400 "Bill must have at least one item")) ∧
    (∀ (bills : List Bill) (now userId : Nat) (b : CreateBillBody)
        (items : List BillItem),
        b.items = some items → items ≠ [] →
        truthyStr b.paymentMethod = false →
        createBill bills now userId b =
          (bills, RouteResult.err 400 "Payment method is required")) ∧
    (∀ (bills : List Bill) (now userId : Nat) (b : CreateBillBody)
        (items : List BillItem),
        b.items = some items → items ≠ [] →
        truthyStr b.paymentMethod = true →
        b.paymentMethod.getD "" ∈ paymentMethodEnum →
        (∀ x ∈ bills, x.billNumber ≠ generateBillNumber now) →
        createBill bills now userId b =
          (bills ++
            [{ userId := userId
               billNumber := generateBillNumber now
               items := items
               subtotal := b.subtotal
               tax := b.tax
               taxPercentage := b.taxPercentage
               discount := b.discount
               total := b.total
               paymentMethod := b.paymentMethod.getD ""
               amountReceived := b.amountReceived
               change := billChange b.amountReceived b.total
               paymentStatus := "Completed" }],
           RouteResult.ok
             { userId := userId
               billNumber := generateBillNumber now
               items := items
               subtotal := b.subtotal
               tax := b.tax
               taxPercentage := b.taxPercentage
               discount := b.discount
               total := b.total
               paymentMethod := b.paymentMethod.getD ""
               amountReceived := b.amountReceived
               change := billChange b.amountReceived b.total
               paymentStatus := "Completed" })) ∧
    (∀ (bills : List Bill) (now userId : Nat) (b : CreateBillBody)
        (items : List BillItem) (x : Bill),
        b.items = some items → items ≠ [] →
        truthyStr b.paymentMethod = true →
        x ∈ bills → x.billNumber = generateBillNumber now →
        createBill bills now userId b =
          (bills, RouteResult.err 500 "Failed to create bill")) ∧
    (∀ (bills : List Bill) (now userId : Nat) (b : CreateBillBody)
        (items : List BillItem),
        b.items = some items → items ≠ [] →
        truthyStr b.paymentMethod = true →
        ¬ b.paymentMethod.getD "" ∈ paymentMethodEnum →
        createBill bills now userId b =
          (bills, RouteResult.err 500 "Failed to create bill")) ∧
    (∀ (a t : Rat),
        billChange none t = 0 ∧ billChange (some 0) t = 0 ∧
        (a ≠ 0 → billChange (some a) t = a - t)) := by
  refine ⟨?_, ?_, ?_, ?_, ?_, ?_⟩
  · intro bills now userId b h
    rcases h with h | h
    · unfold createBill; rw [h]
    · unfold createBill; rw [h]; rfl
  · intro bills now userId b items hit hne hpm
    unfold createBill
    rw [hit]
    have hie : items.isEmpty = false := by
      cases items with
      | nil => exact absurd rfl hne
      | cons a l => rfl
    simp [hie, hpm]
  · intro bills now userId b items hit hne hpm hmem hno
    unfold createBill
    rw [hit]
    have hie : items.isEmpty = false := by
      cases items with
      | nil => exact absurd rfl hne
      | cons a l => rfl
    have hany : (bills.any (fun x => x.billNumber = generateBillNumber now)) = false := by
      rw [List.any_eq_false]
      intro x hx
      simpa using hno x hx
    simp [hie, hpm, hmem, hany]
  · intro bills now userId b items x hit hne hpm hx heq
    unfold createBill
    rw [hit]
    have hie : items.isEmpty = false := by
      cases items with
      | nil => exact absurd rfl hne
      | cons a l => rfl
    have hany : (bills.any (fun y => y.billNumber = generateBillNumber now)) = true :=
      List.any_eq_true.mpr ⟨x, hx, by simp [heq]⟩
    by_cases hmem : b.paymentMethod.getD "" ∈ paymentMethodEnum
    · simp [hie, hpm, hmem, hany]
    · simp [hie, hpm, hmem]
  · intro bills now userId b items hit hne hpm hmem
    unfold createBill
    rw [hit]
    have hie : items.isEmpty = false := by
      cases items with
      | nil => exact absurd rfl hne
      | cons a l => rfl
    simp [hie, hpm, hmem]
  · intro a t
    refine ⟨rfl, ?_, ?_⟩
    · simp [billChange]
    · intro ha; simp [billChange, ha]

/-- Witness for C8 at concrete inputs: a valid request at clock 42
against an empty store persists the Completed bill "BILL-42"; the same
request against a store already holding "BILL-42" fails with a 500
leaving the store unchanged; and a request whose paymentMethod "cash"
falls outside the schema enum fails with a 500 persisting nothing. -/
theorem claim8_witness :
    (createBill [] 42 7
      { items := some [{ productId := 1, productName := "Y", quantity := 2
                         unitPrice := 3, totalPrice := 6 }]
        subtotal := 6, tax := 0, taxPercentage := 5, discount := 0, total := 6
        paymentMethod := some "UPI", amountReceived := some 10 } =
      ([{ userId := 7, billNumber := "BILL-42"
          items := [{ productId := 1, productName := "Y", quantity := 2
                      unitPrice := 3, totalPrice := 6 }]
          subtotal := 6, tax := 0, taxPercentage := 5, discount := 0, total := 6
          paymentMethod := "UPI", amountReceived := some 10
          change := billChange (some 10) 6
          paymentStatus := "Completed" }],
       RouteResult.ok
        { userId := 7, billNumber := "BILL-42"
          items := [{ productId := 1, productName := "Y", quantity := 2
                      unitPrice := 3, totalPrice := 6 }]
          subtotal := 6, tax := 0, taxPercentage := 5, discount := 0, total := 6
          paymentMethod := "UPI", amountReceived := some 10
          change := billChange (some 10) 6
          paymentStatus := "Completed" })) ∧
    (createBill
      [{ userId := 7, billNumber := "BILL-42", items := [], subtotal := 0
         tax := 0, taxPercentage := 5, discount := 0, total := 0
         paymentMethod := "Cash", amountReceived := none, change := 0
         paymentStatus := "Completed" }] 42 7
      { items := some [{ productId := 1, productName := "Y", quantity := 2
                         unitPrice := 3, totalPrice := 6 }]
        subtotal := 6, tax := 0, taxPercentage := 5, discount := 0, total := 6
        paymentMethod := some "UPI", amountReceived := some 10 } =
      ([{ userId := 7, billNumber := "BILL-42", items := [], subtotal := 0
          tax := 0, taxPercentage := 5, discount := 0, total := 0
          paymentMethod := "Cash", amountReceived := none, change := 0
          paymentStatus := "Completed" }],
       RouteResult.err 500 "Failed to create bill")) ∧
    (createBill [] 42 7
      { items := some [{ productId := 1, productName := "Y", quantity := 2
                         unitPrice := 3, totalPrice := 6 }]
        subtotal := 6, tax := 0, taxPercentage := 5, discount := 0, total := 6
        paymentMethod := some "cash", amountReceived := some 10 } =
      ([], RouteResult.err 500 "Failed to create bill")) :=
  ⟨claim8_create_bill_amended.2.2.1 [] 42 7
      { items := some [{ productId := 1, productName := "Y", quantity := 2
                         unitPrice := 3, totalPrice := 6 }]
        subtotal := 6, tax := 0, taxPercentage := 5, discount := 0, total := 6
        paymentMethod := some "UPI", amountReceived := some 10 }
      [{ productId := 1, productName := "Y", quantity := 2
         unitPrice := 3, totalPrice := 6 }]
      rfl (by decide) (by decide) (by decide) (by decide),
   claim8_create_bill_amended.2.2.2.1
      [{ userId := 7, billNumber := "BILL-42", items := [], subtotal := 0
         tax := 0, taxPercentage := 5, discount := 0, total := 0
         paymentMethod := "Cash", amountReceived := none, change := 0
         paymentStatus := "Completed" }] 42 7
      { items := some [{ productId := 1, productName := "Y", quantity := 2
                         unitPrice := 3, totalPrice := 6 }]
        subtotal := 6, tax := 0, taxPercentage := 5, discount := 0, total := 6
        paymentMethod := some "UPI", amountReceived := some 10 }
      [{ productId := 1, productName := "Y", quantity := 2
         unitPrice := 3, totalPrice := 6 }]
      { userId := 7, billNumber := "BILL-42", items := [], subtotal := 0
        tax := 0, taxPercentage := 5, discount := 0, total := 0
        paymentMethod := "Cash", amountReceived := none, change := 0
        paymentStatus := "Completed" }
      rfl (by decide) (by decide) (by decide) (by decide),
   claim8_create_bill_amended.2.2.2.2.1 [] 42 7
      { items := some [{ productId := 1, productName := "Y", quantity := 2
                         unitPrice := 3, totalPrice := 6 }]
        subtotal := 6, tax := 0, taxPercentage := 5, discount := 0, total := 6
        paymentMethod := some "cash", amountReceived := some 10 }
      [{ productId := 1, productName := "Y", quantity := 2
         unitPrice := 3, totalPrice := 6 }]
      rfl (by decide) (by decide) (by decide)⟩

theorem foldl_add_eq_sum (f : Bill → Rat) (l : List Bill) : ∀ (init : Rat),
    l.foldl (fun s b => s + f b) init = init + (l.map f).sum := by
  induction l with
  | nil => intro init; simp
  | cons a l ih =>
      intro init
      simp only [List.foldl_cons, List.map_cons, List.sum_cons, ih]
      ring

theorem find?_map_keyfix (g : String × MethodStats → String × MethodStats)
    (hg : ∀ e, (g e).1 = e.1) (acc : List (String × MethodStats)) (k : String) :
    (acc.map g).find? (fun e => e.1 = k) =
      (acc.find? (fun e => e.1 = k)).map g := by
  induction acc with
  | nil => rfl
  | cons a rest ih =>
      by_cases ha : a.1 = k
      · simp [List.find?, hg, ha]
      · simp [List.find?, hg, ha, ih]

/-- Effect of one `bumpMethod` step on a later breakdown lookup. -/
theorem lookupMethod_bump (acc : List (String × MethodStats))
    (m m' : String) (amt : Rat) :
    lookupMethod (bumpMethod acc m' amt) m =
      (if m = m' then
        match lookupMethod acc m with
        | some st => some { count := st.count + 1, total := st.total + amt }
        | none => some { count := 1, total := amt }
      else lookupMethod acc m) := by
  unfold bumpMethod
  by_cases hany : (acc.any (fun e => e.1 = m')) = true
  · rw [if_pos hany]
    unfold lookupMethod
    rw [find?_map_keyfix _
      (fun e => by by_cases h : e.1 = m' <;> simp [h]) acc m]
    by_cases hm : m = m'
    · subst hm
      rcases hfound : acc.find? (fun e => e.1 = m) with _ | e
      · have hall := List.find?_eq_none.mp hfound
        rw [List.any_eq_true] at hany
        rcases hany with ⟨x, hx, hpx⟩
        exact absurd hpx (hall x hx)
      · have he : e.1 = m := by simpa using List.find?_some hfound
        simp [hfound, he]
    · rcases hfound : acc.find? (fun e => e.1 = m) with _ | e
      · simp [hfound, hm]
      · have he : e.1 = m := by simpa using List.find?_some hfound
        have hne : ¬ e.1 = m' := fun h => hm (he ▸ h)
        simp [hfound, hne, hm]
  · rw [if_neg hany]
    unfold lookupMethod
    rw [List.find?_append]
    have hallne : ∀ x ∈ acc, ¬ (x.1 = m') := by
      intro x hx hc
      exact hany (List.any_eq_true.mpr ⟨x, hx, by simp [hc]⟩)
    have hnone : acc.find? (fun e => e.1 = m') = none :=
      List.find?_eq_none.mpr (fun x hx => by simpa using hallne x hx)
    by_cases hm : m = m'
    · subst hm
      rw [hnone]
      simp [List.find?, hnone]
    · rcases hfound : acc.find? (fun e => e.1 = m) with _ | e
      · simp [hfound, List.find?, hm, Ne.symm hm]
      · simp [hfound, hm]

theorem lookup_foldl_bump (bills : List Bill) (m : String) :
    ∀ (acc : List (String × MethodStats)),
    lookupMethod
      (bills.foldl (fun a b => bumpMethod a b.paymentMethod b.total) acc) m =
      (match lookupMethod acc m with
       | some st => some { count := st.count + specMethodCount bills m
                           total := st.total + specMethodTotal bills m }
       | none =>
           if specMethodCount bills m = 0 then none
           else some { count := specMethodCount bills m
                       total := specMethodTotal bills m }) := by
  induction bills with
  | nil =>
      intro acc
      rcases h : lookupMethod acc m with _ | st
      · simp [specMethodCount, specMethodTotal, h]
      · simp [specMethodCount, specMethodTotal, h]
  | cons b rest ih =>
      intro acc
      rw [List.foldl_cons, ih, lookupMethod_bump]
      by_cases hb : b.paymentMethod = m
      · rw [if_pos hb.symm]
        rcases h : lookupMethod acc m with _ | st
        · simp only [specMethodCount, specMethodTotal, List.filter_cons, hb,
            if_pos, decide_true_eq_true, List.length_cons, List.map_cons,
            List.sum_cons]
          simp [MethodStats.mk.injEq]
          first
          | exact ⟨by omega, by ring⟩
          | omega
          | ring
        · simp only [specMethodCount, specMethodTotal, List.filter_cons, hb,
            if_pos, decide_true_eq_true, List.length_cons, List.map_cons,
            List.sum_cons]
          simp [MethodStats.mk.injEq]
          first
          | exact ⟨by omega, by ring⟩
          | omega
          | ring
      · have hm : ¬ (m = b.paymentMethod) := fun h => hb h.symm
        rw [if_neg hm]
        simp only [specMethodCount, specMethodTotal, List.filter_cons]
        simp [hb]

/-- C9: `calculateBillStats` is a pure function of the supplied list:
totalBills is the count, totalRevenue/totalTax/totalDiscount are the
field sums, averageBill is totalRevenue/totalBills when the list is
non-empty and 0 otherwise, the payment-method breakdown maps exactly the
occurring methods to their count and summed total, and the empty list
yields all-zero stats with an empty breakdown. -/
theorem claim9_compute_stats :
    (∀ bills : List Bill,
        (calculateBillStats bills).totalBills = bills.length) ∧
    (∀ bills : List Bill,
        (calculateBillStats bills).totalRevenue =
          (bills.map (fun b => b.total)).sum) ∧
    (∀ bills : List Bill,
        (calculateBillStats bills).totalTax =
          (bills.map (fun b => b.tax)).sum) ∧
    (∀ bills : List Bill,
        (calculateBillStats bills).totalDiscount =
          (bills.map (fun b => b.discount)).sum) ∧
    (∀ bills : List Bill,
        (calculateBillStats bills).averageBill =
          if bills.length > 0 then
            (calculateBillStats bills).totalRevenue / (bills.length : Rat)
          else 0) ∧
    (∀ (bills : List Bill) (m : String),
        lookupMethod (calculateBillStats bills).paymentMethodBreakdown m =
          (if specMethodCount bills m = 0 then none
           else some { count := specMethodCount bills m
                       total := specMethodTotal bills m })) ∧
    calculateBillStats [] =
      { totalBills := 0, totalRevenue := 0, totalTax := 0, totalDiscount := 0
        averageBill := 0, paymentMethodBreakdown := [] } := by
  refine ⟨fun _ => rfl, ?_, ?_, ?_, fun _ => rfl, ?_, rfl⟩
  · intro bills
    show bills.foldl (fun sum bill => sum + bill.total) 0 = _
    rw [foldl_add_eq_sum]
    exact zero_add _
  · intro bills
    show bills.foldl (fun sum bill => sum + bill.tax) 0 = _
    rw [foldl_add_eq_sum]
    exact zero_add _
  · intro bills
    show bills.foldl (fun sum bill => sum + bill.discount) 0 = _
    rw [foldl_add_eq_sum]
    exact zero_add _
  · intro bills m
    show lookupMethod
      (bills.foldl (fun acc b => bumpMethod acc b.paymentMethod b.total) []) m = _
    rw [lookup_foldl_bump]
    rfl

/-- C10: `redisClient` is not among the module-level bindings of
billService, so every bill-cache function's body throws a ReferenceError
inside its own try, is caught by its own catch, and returns normally —
reads always return null, writes and invalidations always return false,
and the cache itself is never touched. -/
theorem claim10_bill_cache_inert :
    resolveIdent billServiceScope "redisClient" =
      Except.error "ReferenceError: redisClient is not defined" ∧
    (∀ (c : Cache) (u : String) (d : JsData), cacheBillList c u d = (c, false)) ∧
    (∀ (c : Cache) (u : String), getCachedBillList c u = none) ∧
    (∀ (c : Cache) (i : String) (d : JsData), cacheBill c i d = (c, false)) ∧
    (∀ (c : Cache) (i : String), getCachedBill c i = none) ∧
    (∀ (c : Cache) (n : String) (d : JsData),
        cacheBillByNumber c n d = (c, false)) ∧
    (∀ (c : Cache) (n : String), getCachedBillByNumber c n = none) ∧
    (∀ (c : Cache) (k : String) (d : JsData),
        cacheBillStats c k d = (c, false)) ∧
    (∀ (c : Cache) (k : String), getCachedBillStats c k = none) ∧
    (∀ (c : Cache) (u : String), invalidateBillListCache c u = (c, false)) ∧
    (∀ (c : Cache) (i : String), invalidateBillCache c i = (c, false)) ∧
    (∀ (c : Cache) (n : String),
        invalidateBillByNumberCache c n = (c, false)) ∧
    (∀ (c : Cache), invalidateBillStatsCache c = (c, false)) :=
  ⟨rfl,
   fun _ _ _ => rfl, fun _ _ => rfl,
   fun _ _ _ => rfl, fun _ _ => rfl,
   fun _ _ _ => rfl, fun _ _ => rfl,
   fun _ _ _ => rfl, fun _ _ => rfl,
   fun _ _ => rfl, fun _ _ => rfl, fun _ _ => rfl,
   fun _ => rfl⟩
